import Mathlib

/-!
# Generic spin control: value, text and spin-button synchronisation

A shallow embedding of `src/generic/spinctlg.cpp` (the composite spin control
`wxSpinCtrlGenericBase` with its two concrete classes `wxSpinCtrl` and
`wxSpinCtrlDouble`).

Conventions of the embedding:

* C++ `double` values are rationals (`ℚ`), and the functions of the embedding
  compute with them in exact arithmetic: no value is infinite or NaN, and the
  `wxFinite` test in `AdjustAndSnap` always succeeds.  The machine rounds where
  the source does arithmetic on `double`: in the candidates
  `m_value + step * m_increment` of the event handlers and in the snap of
  `AdjustAndSnap` (a quotient, two differences and a product).  For the snap,
  the same lines with every operation rounded to IEEE 754 binary64 are
  `AdjustAndSnap64`, on top of the rounding functions of the namespace
  `binary64`.  Statements made of `AdjustAndSnap` with snapping in force are
  statements in exact arithmetic; what the machine's arithmetic does to the
  snap is stated of `AdjustAndSnap64`.
* `int` spin-button positions are mathematical integers; the button's range is
  `[-SPINCTRLBUT_MAX, SPINCTRLBUT_MAX]`, so their differences do not overflow.
* The object is described after a successful `Create`: both sub-controls exist
  (`m_textCtrl` and `m_spinButton` are non-null).  Of the text control only the
  contents (`GetValue`) and the modified flag (`IsModified`) are kept; focus,
  selection, validators, tooltips and geometry are not part of the state.
* Events are recorded in a log instead of being dispatched.
* The virtual functions `DoTextToValue`, `DoValueToText` and `GetBase` dispatch
  on the dynamic class of the object (`Kind`).
* Library routines that the file calls but that live outside it
  (`wxString::ToLong`, `wxString::Format`, `wxNumberFormatter`,
  `wxSpinCtrlImpl`) are modelled separately and marked as such.
* The namespace `Spec` holds the two functions of the specification's section
  4.1 in the specification's own words; they are only compared with the code.
* The namespace `Example` holds concrete controls used as instances and as
  counterexamples; `Example.made_by_Create` and
  `Example.made_by_Create_and_setters` show how the constructor and the setters
  produce them.
-/

/-- The constant `SPINCTRLBUT_MAX` (line 58): the spin button ranges over
`[-SPINCTRLBUT_MAX, SPINCTRLBUT_MAX]`. -/
def SPINCTRLBUT_MAX : ℤ := 32000

/-! ## Library routines used by the file -/

namespace wxString

/-- Modelled from the spec: the digit value of a character for `strtol`-style
parsing in base `base` (`0-9`, then letters of either case); `none` when the
character is not a digit of that base.  `wxString::ToLong` is not in the
sources. -/
def digitValue (base : ℕ) (c : Char) : Option ℕ :=
  let d : Option ℕ :=
    if '0' ≤ c ∧ c ≤ '9' then some (c.toNat - '0'.toNat)
    else if 'a' ≤ c ∧ c ≤ 'z' then some (c.toNat - 'a'.toNat + 10)
    else if 'A' ≤ c ∧ c ≤ 'Z' then some (c.toNat - 'A'.toNat + 10)
    else none
  match d with
  | some v => if v < base then some v else none
  | none => none

/-- Modelled from the spec: reads a whole list of characters as digits of base
`base`, most significant first, starting from the accumulator `acc`. -/
def parseDigits (base : ℕ) : List Char → ℕ → Option ℕ
  | [], acc => some acc
  | c :: cs, acc =>
    match digitValue base c with
    | some d => parseDigits base cs (acc * base + d)
    | none => none

/-- Modelled from the spec: a non-empty run of digits of base `base`. -/
def parseNat (base : ℕ) (cs : List Char) : Option ℕ :=
  match cs with
  | [] => none
  | _ :: _ => parseDigits base cs 0

/-- Modelled from the spec: an unsigned integer, with the optional `0x` or `0X`
marker that `strtol` accepts in base 16. -/
def parseUnsigned (base : ℕ) (cs : List Char) : Option ℕ :=
  match cs with
  | '0' :: 'x' :: d :: ds => if base = 16 then parseNat base (d :: ds) else none
  | '0' :: 'X' :: d :: ds => if base = 16 then parseNat base (d :: ds) else none
  | _ => parseNat base cs

/-- Modelled from the spec: `wxString::ToLong(&val, base)` (not in the sources).
The whole text must be an optionally signed integer written in base `base`;
anything else, the empty text included, is not a number. -/
def ToLong (text : String) (base : ℕ) : Option ℤ :=
  match text.data with
  | '-' :: ds => (parseUnsigned base ds).map (fun n => -(n : ℤ))
  | '+' :: ds => (parseUnsigned base ds).map (fun n => (n : ℤ))
  | ds => (parseUnsigned base ds).map (fun n => (n : ℤ))

/-- Modelled from the spec: `wxString::Format("%ld", val)`, the decimal
rendering of an integer (not in the sources). -/
def FormatLong (val : ℤ) : String :=
  if val < 0 then "-" ++ Nat.repr val.natAbs else Nat.repr val.natAbs

end wxString

namespace wxSpinCtrlImpl

/-- Modelled from the spec: `wxSpinCtrlImpl::IsBaseCompatibleWithRange` (not in
the sources).  Negative values in the range are allowed only if the base is 10
(comment at line 631; spec section 7: a negative range with a non-decimal base
is incompatible). -/
def IsBaseCompatibleWithRange (minVal maxVal : ℚ) (base : ℤ) : Bool :=
  decide (base = 10 ∨ (0 ≤ minVal ∧ 0 ≤ maxVal))

/-- Modelled from the spec: `wxSpinCtrlImpl::FormatAsHex(val, maxVal)` (not in
the sources).  Spec section 8: value 255 in base 16 is shown as `FF`; the
digits are upper-case hexadecimal digits and `maxVal` does not change them. -/
def FormatAsHex (val : ℤ) (_maxVal : ℚ) : String :=
  ((Nat.toDigits 16 val.natAbs).map Char.toUpper).asString

end wxSpinCtrlImpl

namespace wxNumberFormatter

/-- Modelled from the spec: rounding to the nearest integer, exact ties going
to the even neighbour (the rounding of `printf`). -/
def roundHalfEven (r : ℚ) : ℤ :=
  let f := ⌊r⌋
  if r - f < 1 / 2 then f
  else if 1 / 2 < r - f then f + 1
  else if f % 2 = 0 then f else f + 1

/-- Modelled from the spec: the decimal digits of `n`, padded on the left with
zeros to at least `width` characters. -/
def padDigits (width n : ℕ) : List Char :=
  let ds := Nat.toDigits 10 n
  List.replicate (width - ds.length) '0' ++ ds

/-- Modelled from the spec: `wxNumberFormatter::ToString(val, precision)` (not
in the sources): the floating-point representation of spec section 4.6, the
value written in decimal with exactly `precision` digits after the decimal
point, rounded to the nearest such number. -/
def ToString (val : ℚ) (precision : ℕ) : String :=
  let n := (roundHalfEven (|val| * 10 ^ precision)).toNat
  let whole := Nat.repr (n / 10 ^ precision)
  let sign := if val < 0 then "-" else ""
  if precision = 0 then sign ++ whole
  else sign ++ whole ++ "." ++ (padDigits precision (n % 10 ^ precision)).asString

/-- Modelled from the spec: an unsigned decimal number `ddd` or `ddd.ddd`. -/
def parseDecimal (cs : List Char) : Option ℚ :=
  let whole := cs.takeWhile (fun c => c ≠ '.')
  match cs.dropWhile (fun c => c ≠ '.') with
  | [] => (wxString.parseNat 10 whole).map (fun n => (n : ℚ))
  | _ :: frac =>
    match wxString.parseNat 10 whole, wxString.parseDigits 10 frac 0 with
    | some w, some f => some ((w : ℚ) + (f : ℚ) / 10 ^ frac.length)
    | _, _ => none

/-- Modelled from the spec: `wxNumberFormatter::FromString(text, &val)` (not in
the sources): the whole text must be an optionally signed decimal number. -/
def FromString (text : String) : Option ℚ :=
  match text.data with
  | '-' :: ds => (parseDecimal ds).map (fun q => -q)
  | '+' :: ds => parseDecimal ds
  | ds => parseDecimal ds

end wxNumberFormatter

/-! ## State -/

/-- The `sendEvent` argument of `DoSetValue` and `SyncSpinToText`. -/
inductive SendEvent where
  | SendEvent_None
  | SendEvent_Text
  deriving DecidableEq, Repr

/-- The dynamic class of a control; it selects the overrides of the virtual
functions. -/
inductive Kind where
  | wxSpinCtrl
  | wxSpinCtrlDouble
  deriving DecidableEq, Repr

/-- An event recorded by the control. -/
inductive wxEvent where
  /-- Text notification generated by `m_textCtrl->SetValue(str)`. -/
  | wxEVT_TEXT (str : String)
  /-- Change notification sent by `DoSendEvent` (`wxEVT_SPINCTRL` or
  `wxEVT_SPINCTRLDOUBLE`), with the value and the text it carries. -/
  | wxEVT_SPINCTRL (value : ℚ) (str : String)
  deriving DecidableEq, Repr

/-- What is kept of the text sub-control `m_textCtrl`. -/
structure wxTextCtrl where
  /-- Contents of the field, `GetValue()`. -/
  value : String
  /-- Whether the user edited the field since the last `DiscardEdits`,
  `IsModified()`. -/
  modified : Bool
  deriving DecidableEq, Repr

/-- The members of `wxSpinCtrlGenericBase` (with those of its two concrete
classes) that the synchronisation logic reads or writes. -/
structure wxSpinCtrlGenericBase where
  m_value : ℚ
  m_min : ℚ
  m_max : ℚ
  m_increment : ℚ
  m_snap_to_ticks : Bool
  /-- Last position reported by the spin button. -/
  m_spin_value : ℤ
  m_textCtrl : wxTextCtrl
  /-- Window style: `HasFlag(wxSP_WRAP)`. -/
  wxSP_WRAP : Bool
  /-- Window style: `HasFlag(wxSP_ARROW_KEYS)`. -/
  wxSP_ARROW_KEYS : Bool
  /-- Dynamic class of the object. -/
  kind : Kind
  /-- Member `m_base` of `wxSpinCtrl`. -/
  m_base : ℤ
  /-- Member `m_digits` of `wxSpinCtrlDouble`. -/
  m_digits : ℕ
  /-- Events generated so far, oldest first. -/
  events : List wxEvent
  deriving DecidableEq, Repr

/-- A `wxSpinEvent` of the spin button. -/
structure wxSpinEvent where
  /-- Raw position, `GetPosition()`. -/
  position : ℤ
  /-- Whether `GetEventType() == wxEVT_SCROLL_LINEUP`. -/
  lineUp : Bool
  deriving DecidableEq, Repr

/-- Key codes distinguished by `OnTextChar`. -/
inductive KeyCode where
  | WXK_UP
  | WXK_DOWN
  | WXK_PAGEUP
  | WXK_PAGEDOWN
  | other
  deriving DecidableEq, Repr

/-- A `wxMouseEvent` as read by `OnMouseWheel`. -/
structure wxMouseEvent where
  /-- Whether `GetWheelAxis() == wxMOUSE_WHEEL_VERTICAL`. -/
  vertical : Bool
  /-- Rotation, `GetWheelRotation()`. -/
  wheelRotation : ℤ
  deriving DecidableEq, Repr

/-- Conversion `static_cast<long>(val)`: truncation towards zero. -/
def castToLong (val : ℚ) : ℤ :=
  if 0 ≤ val then ⌊val⌋ else ⌈val⌉

/-! ## Virtual functions of the concrete classes -/

namespace wxSpinCtrl

/-- Source `wxSpinCtrl::DoTextToValue` (lines 714-723): the text read as a
`long` in the current base, converted to `double`. -/
def DoTextToValue (s : wxSpinCtrlGenericBase) (text : String) : Option ℚ :=
  match wxString.ToLong text s.m_base.toNat with
  | none => none
  | some lval => some (lval : ℚ)

/-- Source `wxSpinCtrl::DoValueToText` (lines 725-739): the value truncated to
`long`, in hexadecimal for base 16 and in decimal otherwise. -/
def DoValueToText (s : wxSpinCtrlGenericBase) (val : ℚ) : String :=
  if s.m_base = 16 then wxSpinCtrlImpl.FormatAsHex (castToLong val) s.m_max
  else wxString.FormatLong (castToLong val)

end wxSpinCtrl

namespace wxSpinCtrlDouble

/-- Source `wxSpinCtrlDouble::DoTextToValue` (lines 794-797). -/
def DoTextToValue (_s : wxSpinCtrlGenericBase) (text : String) : Option ℚ :=
  wxNumberFormatter.FromString text

/-- Source `wxSpinCtrlDouble::DoValueToText` (lines 799-802). -/
def DoValueToText (s : wxSpinCtrlGenericBase) (val : ℚ) : String :=
  wxNumberFormatter.ToString val s.m_digits

end wxSpinCtrlDouble

/-! ## The generic base class -/

namespace wxSpinCtrlGenericBase

/-- Modelled from the spec: virtual `GetBase()` is defined in the class headers,
which are not in the sources; it is `m_base` for `wxSpinCtrl` and always 10 for
`wxSpinCtrlDouble`. -/
def GetBase (s : wxSpinCtrlGenericBase) : ℤ :=
  match s.kind with
  | Kind.wxSpinCtrl => s.m_base
  | Kind.wxSpinCtrlDouble => 10

/-- Virtual `DoTextToValue(text, &val)`: `some val` when the text is a number,
`none` when the call returns false. -/
def DoTextToValue (s : wxSpinCtrlGenericBase) (text : String) : Option ℚ :=
  match s.kind with
  | Kind.wxSpinCtrl => wxSpinCtrl.DoTextToValue s text
  | Kind.wxSpinCtrlDouble => wxSpinCtrlDouble.DoTextToValue s text

/-- Virtual `DoValueToText(val)`. -/
def DoValueToText (s : wxSpinCtrlGenericBase) (val : ℚ) : String :=
  match s.kind with
  | Kind.wxSpinCtrl => wxSpinCtrl.DoValueToText s val
  | Kind.wxSpinCtrlDouble => wxSpinCtrlDouble.DoValueToText s val

/-- Virtual `DoSendEvent()` (lines 705-712 and 785-792): the change event, with
the stored value and the displayed text, is appended to the log. -/
def DoSendEvent (s : wxSpinCtrlGenericBase) : wxSpinCtrlGenericBase :=
  { s with events := s.events ++ [wxEvent.wxEVT_SPINCTRL s.m_value s.m_textCtrl.value] }

/-- Source `AdjustAndSnap` (lines 564-585). -/
def AdjustAndSnap (s : wxSpinCtrlGenericBase) (val : ℚ) : ℚ :=
  let val := if val < s.m_min then s.m_min else val
  let val := if val > s.m_max then s.m_max else val
  if s.m_snap_to_ticks = true ∧ s.m_increment ≠ 0 then
    let snap_value := val / s.m_increment
    if (snap_value - ⌊snap_value⌋) < (⌈snap_value⌉ - snap_value) then
      ⌊snap_value⌋ * s.m_increment
    else
      ⌈snap_value⌉ * s.m_increment
  else val

/-- Source `DoSetValue` (lines 587-617).  The result is the returned flag and
the state after the call. -/
def DoSetValue (s : wxSpinCtrlGenericBase) (val : ℚ) (sendEvent : SendEvent) :
    Bool × wxSpinCtrlGenericBase :=
  let val := s.AdjustAndSnap val
  let str := s.DoValueToText val
  if val ≠ s.m_value ∨ str ≠ s.m_textCtrl.value then
    let m_value :=
      match s.DoTextToValue str with
      | some d => d
      | none => val
    let events :=
      match sendEvent with
      | SendEvent.SendEvent_None => s.events
      | SendEvent.SendEvent_Text => s.events ++ [wxEvent.wxEVT_TEXT str]
    (true, { s with m_value := m_value,
                    m_textCtrl := { value := str, modified := false },
                    events := events })
  else
    (false, s)

/-- Source `AdjustToFitInRange` (lines 619-627). -/
def AdjustToFitInRange (s : wxSpinCtrlGenericBase) (value : ℚ) : ℚ :=
  let value :=
    if value < s.m_min then (if s.wxSP_WRAP then s.m_max else s.m_min) else value
  let value :=
    if value > s.m_max then (if s.wxSP_WRAP then s.m_min else s.m_max) else value
  value

/-- Source `SyncSpinToText` (lines 512-535). -/
def SyncSpinToText (s : wxSpinCtrlGenericBase) (sendEvent : SendEvent) :
    Bool × wxSpinCtrlGenericBase :=
  if s.m_textCtrl.modified = false then (false, s)
  else
    let textValue :=
      match s.DoTextToValue s.m_textCtrl.value with
      | some textValue =>
        if textValue > s.m_max then s.m_max
        else if textValue < s.m_min then s.m_min
        else textValue
      | none => s.m_value
    s.DoSetValue textValue sendEvent

/-- Source `OnSpinButton` (lines 395-429). -/
def OnSpinButton (s : wxSpinCtrlGenericBase) (event : wxSpinEvent) :
    wxSpinCtrlGenericBase :=
  let s := (s.SyncSpinToText SendEvent.SendEvent_None).2
  let spin_value := event.position
  let step : ℚ := if event.lineUp then 1 else -1
  let step : ℚ :=
    if (spin_value ≥ 0 ∧ s.m_spin_value ≥ 0) ∨ (spin_value ≤ 0 ∧ s.m_spin_value ≤ 0) then
      step * ((|spin_value - s.m_spin_value| : ℤ) : ℚ)
    else step
  let value := s.AdjustToFitInRange (s.m_value + step * s.m_increment)
  if |spin_value - s.m_spin_value| > SPINCTRLBUT_MAX then
    { s with m_spin_value := spin_value }
  else
    let s := { s with m_spin_value := spin_value }
    let r := s.DoSetValue value SendEvent.SendEvent_Text
    if r.1 then r.2.DoSendEvent else r.2

/-- Source `OnTextLostFocus` (lines 431-437). -/
def OnTextLostFocus (s : wxSpinCtrlGenericBase) : wxSpinCtrlGenericBase :=
  let r := s.SyncSpinToText SendEvent.SendEvent_Text
  if r.1 then r.2.DoSendEvent else r.2

/-- Source `OnTextChar` (lines 439-478). -/
def OnTextChar (s : wxSpinCtrlGenericBase) (key : KeyCode) : wxSpinCtrlGenericBase :=
  if s.wxSP_ARROW_KEYS = false then s
  else
    let value := s.m_value
    let stepped : Option ℚ :=
      match key with
      | KeyCode.WXK_UP => some (value + s.m_increment)
      | KeyCode.WXK_DOWN => some (value - s.m_increment)
      | KeyCode.WXK_PAGEUP => some (value + s.m_increment * 10)
      | KeyCode.WXK_PAGEDOWN => some (value - s.m_increment * 10)
      | KeyCode.other => none
    match stepped with
    | none => s
    | some value =>
      let value := s.AdjustToFitInRange value
      let s := (s.SyncSpinToText SendEvent.SendEvent_None).2
      let r := s.DoSetValue value SendEvent.SendEvent_None
      if r.1 then r.2.DoSendEvent else r.2

/-- Source `OnMouseWheel` (lines 480-506). -/
def OnMouseWheel (s : wxSpinCtrlGenericBase) (event : wxMouseEvent) :
    wxSpinCtrlGenericBase :=
  if event.vertical = false ∨ event.wheelRotation = 0 then s
  else
    let value := s.m_value
    let value :=
      if event.wheelRotation > 0 then value + s.m_increment
      else if event.wheelRotation < 0 then value - s.m_increment
      else value
    let value := s.AdjustToFitInRange value
    let s := (s.SyncSpinToText SendEvent.SendEvent_None).2
    let r := s.DoSetValue value SendEvent.SendEvent_None
    if r.1 then r.2.DoSendEvent else r.2

/-- Source `DoSetRange` (lines 629-648). -/
def DoSetRange (s : wxSpinCtrlGenericBase) (min max : ℚ) : wxSpinCtrlGenericBase :=
  if wxSpinCtrlImpl.IsBaseCompatibleWithRange min max s.GetBase = false then s
  else
    let s := { s with m_min := min }
    let s :=
      if s.m_value < s.m_min then (s.DoSetValue s.m_min SendEvent.SendEvent_None).2 else s
    let s := { s with m_max := max }
    let s :=
      if s.m_value > s.m_max then (s.DoSetValue s.m_max SendEvent.SendEvent_None).2 else s
    s

/-- Source `DoSetIncrement` (lines 650-653). -/
def DoSetIncrement (s : wxSpinCtrlGenericBase) (inc : ℚ) : wxSpinCtrlGenericBase :=
  { s with m_increment := inc }

/-- Source `SetSnapToTicks` (lines 655-659). -/
def SetSnapToTicks (s : wxSpinCtrlGenericBase) (snap_to_ticks : Bool) :
    wxSpinCtrlGenericBase :=
  let s := { s with m_snap_to_ticks := snap_to_ticks }
  (s.DoSetValue s.m_value SendEvent.SendEvent_None).2

/-- Modelled from the spec: `InRange(val)` is defined in the class header, which
is not in the sources; by its use at line 551 (the other branch is commented
"not a number at all or out of range") it is `m_min <= val <= m_max`. -/
def InRange (s : wxSpinCtrlGenericBase) (val : ℚ) : Bool :=
  decide (s.m_min ≤ val ∧ val ≤ s.m_max)

/-- Source `SetValue(const wxString&)` (lines 546-562). -/
def SetValue (s : wxSpinCtrlGenericBase) (text : String) : wxSpinCtrlGenericBase :=
  match s.DoTextToValue text with
  | some val =>
    if s.InRange val then (s.DoSetValue val SendEvent.SendEvent_None).2
    else { s with m_value := s.m_min, m_textCtrl := { value := text, modified := false } }
  | none => { s with m_value := s.m_min, m_textCtrl := { value := text, modified := false } }

/-- The object after `Init()` (lines 192-204) and the constructors of the
concrete classes: default range, base 10, the given number of digits and window
style, an empty text field and an empty event log.  For `wxSpinCtrlDouble` the
argument `digits` stands for the number that `wxSpinCtrlDouble::Create` (line
778) obtains from `wxSpinCtrlImpl::DetermineDigits(inc)`, a routine outside the
sources (it is 0 for an increment of 1). -/
def Init (kind : Kind) (digits : ℕ) (wrap arrowKeys : Bool) : wxSpinCtrlGenericBase :=
  { m_value := 0, m_min := 0, m_max := 100, m_increment := 1,
    m_snap_to_ticks := false, m_spin_value := 0,
    m_textCtrl := { value := "", modified := false },
    wxSP_WRAP := wrap, wxSP_ARROW_KEYS := arrowKeys,
    kind := kind, m_base := 10, m_digits := digits, events := [] }

/-- Source `Create` (lines 206-260), the part that sets the value state: the
range and increment, the initial value, the initial text and the spin button
position (a new spin button is at position 0). -/
def Create (s : wxSpinCtrlGenericBase) (value : String) (min max initial increment : ℚ) :
    wxSpinCtrlGenericBase :=
  let s := { s with m_min := min, m_max := max, m_increment := increment }
  let s := { s with m_value := s.AdjustAndSnap initial }
  let s :=
    if value ≠ "" then
      match s.DoTextToValue value with
      | some d => { s with m_value := s.AdjustAndSnap d }
      | none => s
    else s
  let s := { s with m_textCtrl := { value := s.DoValueToText s.m_value, modified := false } }
  { s with m_spin_value := 0 }

/-- The user edits the text field: the contents change and the field becomes
modified.  This is the environment step that precedes `SyncSpinToText`. -/
def UserTypes (s : wxSpinCtrlGenericBase) (text : String) : wxSpinCtrlGenericBase :=
  { s with m_textCtrl := { value := text, modified := true } }

end wxSpinCtrlGenericBase

namespace wxSpinCtrl

/-- Source `wxSpinCtrl::SetBase` (lines 674-703). -/
def SetBase (s : wxSpinCtrlGenericBase) (base : ℤ) : Bool × wxSpinCtrlGenericBase :=
  if base ≠ 10 ∧ base ≠ 16 then (false, s)
  else if base = s.m_base then (true, s)
  else if wxSpinCtrlImpl.IsBaseCompatibleWithRange s.m_min s.m_max base = false then (false, s)
  else
    let hasValidVal := s.DoTextToValue s.m_textCtrl.value
    let s := { s with m_base := base }
    match hasValidVal with
    | some val =>
      (true, { s with m_textCtrl := { s.m_textCtrl with value := s.DoValueToText val } })
    | none => (true, s)

end wxSpinCtrl

/-! ## Auxiliary definitions used by the statements -/

namespace wxSpinCtrlGenericBase

/-- The value of `val` after the two range tests that open `AdjustAndSnap`
(lines 566-569), before any snapping. -/
def rangeTests (s : wxSpinCtrlGenericBase) (val : ℚ) : ℚ :=
  let val := if val < s.m_min then s.m_min else val
  if val > s.m_max then s.m_max else val

end wxSpinCtrlGenericBase

namespace Spec

/-- The specification's `clampToRange(v)` (section 4.1), in its words: min if
`v < min`, max if `v > max`, and `v` otherwise. -/
def clampToRange (min max v : ℚ) : ℚ :=
  if v < min then min else if v > max then max else v

/-- The specification's `adjustWithWrap(v)` (section 4.1), in its words: with
wrap enabled `v < min` goes to max and `v > max` goes to min; otherwise it
behaves as the clamp. -/
def adjustWithWrap (wrap : Bool) (min max v : ℚ) : ℚ :=
  if wrap then (if v < min then max else if v > max then min else v)
  else clampToRange min max v

end Spec

/-! ## Concrete controls used as examples -/

namespace Example

/-- An integer control with range `[0, 100]`, increment 5, value 0 and
snap-to-ticks on. -/
def ticks5 : wxSpinCtrlGenericBase :=
  { wxSpinCtrlGenericBase.Init Kind.wxSpinCtrl 0 false true with
    m_increment := 5, m_snap_to_ticks := true,
    m_textCtrl := { value := "0", modified := false } }

/-- An integer control with range `[1, 3]`, increment 5 and snap-to-ticks on:
no multiple of the increment lies in the range.  It is the control made by
`Create` with initial value 1 after `SetSnapToTicks(true)`, which already moved
the value to 0. -/
def ticksOutside : wxSpinCtrlGenericBase :=
  { wxSpinCtrlGenericBase.Init Kind.wxSpinCtrl 0 false true with
    m_value := 0, m_min := 1, m_max := 3, m_increment := 5, m_snap_to_ticks := true,
    m_textCtrl := { value := "0", modified := false } }

/-- An integer control with style `wxSP_WRAP`, range `[0, 10]` and value 10. -/
def wrap10 : wxSpinCtrlGenericBase :=
  { wxSpinCtrlGenericBase.Init Kind.wxSpinCtrl 0 true true with
    m_value := 10, m_max := 10,
    m_textCtrl := { value := "10", modified := false } }

/-- An integer control in base 10 with range `[-5, 10]`, value 0. -/
def negativeRange : wxSpinCtrlGenericBase :=
  { wxSpinCtrlGenericBase.Init Kind.wxSpinCtrl 0 false true with
    m_min := -5, m_max := 10,
    m_textCtrl := { value := "0", modified := false } }

/-- An integer control in base 16 with range `[0, 255]`, value 255 shown as
`FF`. -/
def hex255 : wxSpinCtrlGenericBase :=
  { wxSpinCtrlGenericBase.Init Kind.wxSpinCtrl 0 false true with
    m_value := 255, m_max := 255, m_base := 16,
    m_textCtrl := { value := "FF", modified := false } }

end Example

namespace wxSpinCtrlGenericBase

/-- The control after the call `SyncSpinToText(SendEvent_None)` that opens
`OnSpinButton` (line 405). -/
def synced (s : wxSpinCtrlGenericBase) : wxSpinCtrlGenericBase :=
  (s.SyncSpinToText SendEvent.SendEvent_None).2

/-- The end of `OnSpinButton` when the position change is not a wrap (lines 414
and 424-428): `candidate` goes through `AdjustToFitInRange`, the new position is
recorded, the value is committed with a text event, and the change event is
sent when the commit reports a change. -/
def stepperCommit (s : wxSpinCtrlGenericBase) (position : ℤ) (candidate : ℚ) :
    wxSpinCtrlGenericBase :=
  let value := s.AdjustToFitInRange candidate
  let s := { s with m_spin_value := position }
  let r := s.DoSetValue value SendEvent.SendEvent_Text
  if r.1 then r.2.DoSendEvent else r.2

end wxSpinCtrlGenericBase

namespace Example

/-- An integer control with range `[0, 100]`, increment 1 and value 50, as made by
`Create`. -/
def at50 : wxSpinCtrlGenericBase :=
  { wxSpinCtrlGenericBase.Init Kind.wxSpinCtrl 0 false true with
    m_value := 50, m_textCtrl := { value := "50", modified := false } }

/-- An integer control with range `[0, 100]`, increment 1 and value 5, as made by
`Create`. -/
def at5 : wxSpinCtrlGenericBase :=
  { wxSpinCtrlGenericBase.Init Kind.wxSpinCtrl 0 false true with
    m_value := 5, m_textCtrl := { value := "5", modified := false } }

/-- An integer control with range `[0, 10]`, increment 1 and value 5, as made by
`Create`. -/
def range10 : wxSpinCtrlGenericBase :=
  { wxSpinCtrlGenericBase.Init Kind.wxSpinCtrl 0 false true with
    m_value := 5, m_max := 10, m_textCtrl := { value := "5", modified := false } }

/-- An integer control with range `[0, 100]`, increment 1 and value 5 whose spin
button was last reported at position -1 (as after one down step from 6; the
event log is left empty). -/
def at5Below : wxSpinCtrlGenericBase :=
  { at5 with m_spin_value := -1 }

/-- The control `at50` with the spin button at its upper end, position 32000. -/
def at50Top : wxSpinCtrlGenericBase :=
  { at50 with m_spin_value := 32000 }

/-- A floating-point control with no digits after the point, range `[0, 100]`,
increment 1 and initial value `1/4`, as made by `Create`: the stored value is
`1/4` and the field shows `0`. -/
def quarter : wxSpinCtrlGenericBase :=
  { wxSpinCtrlGenericBase.Init Kind.wxSpinCtrlDouble 0 false true with
    m_value := 1 / 4, m_textCtrl := { value := "0", modified := false } }

/-- A floating-point control with no digits after the point, range `[0, 100]`,
increment 1 and value 0, as made by `Create`. -/
def zeroDouble : wxSpinCtrlGenericBase :=
  { wxSpinCtrlGenericBase.Init Kind.wxSpinCtrlDouble 0 false true with
    m_textCtrl := { value := "0", modified := false } }

/-- A floating-point control with no digits after the point, range
`[1/4, 100]`, increment 1 and value 50, as made by `Create`. -/
def minQuarter : wxSpinCtrlGenericBase :=
  { wxSpinCtrlGenericBase.Init Kind.wxSpinCtrlDouble 0 false true with
    m_value := 50, m_min := 1 / 4, m_textCtrl := { value := "50", modified := false } }

end Example

/-! ## The snap in the machine's arithmetic -/

namespace binary64

/-- Rounding to the nearest integer, exact ties going to the even neighbour. -/
def nearestEven (r : ℚ) : ℤ :=
  let f := ⌊r⌋
  if r - f < 1 / 2 then f
  else if 1 / 2 < r - f then f + 1
  else if f % 2 = 0 then f else f + 1

/-- The binary exponent that fixes the spacing of the `double` values around
`q`: the largest `e` with `2 ^ e ≤ |q|`, and -1022 for the subnormal values and
for zero. -/
def exponent (q : ℚ) : ℤ := max (Int.log 2 |q|) (-1022)

/-- The spacing of the `double` values around `q` (53 significant bits). -/
def ulp (q : ℚ) : ℚ := (2 : ℚ) ^ (exponent q - 52)

/-- The `double` nearest to the real number `q`, exact ties going to the value
with an even significand (the IEEE 754 default rounding of the C++ operations
on `double`), before the test for overflow. -/
def nearest (q : ℚ) : ℚ := (nearestEven (q / ulp q) : ℚ) * ulp q

/-- The largest finite `double`, `(2 ^ 53 - 1) * 2 ^ 971`. -/
def maxFinite : ℚ := (2 ^ 53 - 1) * 2 ^ 971

/-- A rounded result as a `double`: `none` when it overflows to an infinity. -/
def finite (q : ℚ) : Option ℚ := if |q| ≤ maxFinite then some q else none

/-- The C++ quotient `a / b` of two `double` values, `b` not zero. -/
def div (a b : ℚ) : Option ℚ := finite (nearest (a / b))

/-- The C++ difference `a - b` of two `double` values; in `AdjustAndSnap` it is
taken between a value and its floor or ceiling and cannot overflow. -/
def sub (a b : ℚ) : ℚ := nearest (a - b)

/-- The C++ product `a * b` of two `double` values. -/
def mul (a b : ℚ) : Option ℚ := finite (nearest (a * b))

end binary64

namespace wxSpinCtrlGenericBase

/-- Source `AdjustAndSnap` (lines 564-585) with the quotient, the two
differences and the product rounded to `double` as the machine does, for
arguments and members that are themselves `double` values.  `wxFinite` fails
when the quotient overflows, and then the clamped value is returned; the result
`none` stands for a product that overflows to an infinity. -/
def AdjustAndSnap64 (s : wxSpinCtrlGenericBase) (val : ℚ) : Option ℚ :=
  let val := if val < s.m_min then s.m_min else val
  let val := if val > s.m_max then s.m_max else val
  if s.m_snap_to_ticks = true ∧ s.m_increment ≠ 0 then
    match binary64.div val s.m_increment with
    | none => some val
    | some snap_value =>
      if binary64.sub snap_value ⌊snap_value⌋ < binary64.sub ⌈snap_value⌉ snap_value then
        binary64.mul ⌊snap_value⌋ s.m_increment
      else
        binary64.mul ⌈snap_value⌉ s.m_increment
  else some val

end wxSpinCtrlGenericBase

namespace Example

/-- The `double` written `0.1` in C++: `3602879701896397 / 2 ^ 55`. -/
def tenth : ℚ := 3602879701896397 / 36028797018963968

/-- A floating-point control with one digit after the point, range
`[0, 0.25]`, increment `0.1` (the `double`), value 0 and snap-to-ticks on. -/
def tenths : wxSpinCtrlGenericBase :=
  { wxSpinCtrlGenericBase.Init Kind.wxSpinCtrlDouble 1 false true with
    m_max := 1 / 4, m_increment := tenth, m_snap_to_ticks := true,
    m_textCtrl := { value := "0.0", modified := false } }

end Example

/-! # Theorems -/

/-! ## Rounding to the nearest tick -/

/-- The integer chosen by the floor/ceil comparison of `AdjustAndSnap` (lines
577-580) is the nearest integer, halves going up. -/
theorem snap_choice_eq_round (x : ℚ) :
    (if x - ⌊x⌋ < ⌈x⌉ - x then ⌊x⌋ else ⌈x⌉) = round x := by
  rw [round_eq]
  by_cases hx : (⌊x⌋ : ℚ) = x
  · have hc : ⌈x⌉ = ⌊x⌋ := by
      rw [← hx]; simp
    have hf : ⌊x + 1 / 2⌋ = ⌊x⌋ := by
      rw [Int.floor_eq_iff]
      constructor <;> linarith
    rw [hc, hf]; simp
  · have hlt : (⌊x⌋ : ℚ) < x := lt_of_le_of_ne (Int.floor_le x) hx
    have hc : ⌈x⌉ = ⌊x⌋ + 1 := by
      rw [Int.ceil_eq_iff]
      push_cast
      constructor
      · linarith
      · exact (Int.lt_floor_add_one x).le
    have h1 := Int.lt_floor_add_one x
    rw [hc]
    push_cast
    split_ifs with h
    · symm
      rw [Int.floor_eq_iff]
      constructor <;> linarith
    · symm
      rw [Int.floor_eq_iff]
      push_cast
      constructor <;> linarith

/-- A number lying between `x` and the integer nearest to `x` has the same
nearest integer. -/
theorem round_of_between (x y : ℚ) (h : (y - x) * (y - round x) ≤ 0) :
    round y = round x := by
  have hm : ∀ a b : ℚ, a ≤ b → round a ≤ round b := by
    intro a b hab
    rw [round_eq, round_eq]
    exact Int.floor_mono (by linarith)
  have hn : round ((round x : ℤ) : ℚ) = round x := round_intCast _
  rcases le_total x (round x : ℚ) with hx | hx
  · have h1 : x ≤ y := by
      by_contra hc
      push_neg at hc
      nlinarith
    have h2 : y ≤ round x := by
      by_contra hc
      push_neg at hc
      nlinarith
    have := hm _ _ h1
    have := hm _ _ h2
    omega
  · have h1 : y ≤ x := by
      by_contra hc
      push_neg at hc
      nlinarith
    have h2 : (round x : ℚ) ≤ y := by
      by_contra hc
      push_neg at hc
      nlinarith
    have := hm _ _ h1
    have := hm _ _ h2
    omega

/-- The nearest integer of `x` is `n` when `n - 1/2 ≤ x < n + 1/2`. -/
theorem round_eq_of_near (x : ℚ) (n : ℤ) (h1 : (n : ℚ) - 1 / 2 ≤ x) (h2 : x < n + 1 / 2) :
    round x = n := by
  rw [round_eq, Int.floor_eq_iff]
  constructor <;> linarith

namespace wxSpinCtrlGenericBase

/-- `AdjustAndSnap` in closed form: the range tests, then, when snapping
applies, the nearest multiple of the increment. -/
theorem AdjustAndSnap_eq (s : wxSpinCtrlGenericBase) (v : ℚ) :
    s.AdjustAndSnap v =
      if s.m_snap_to_ticks = true ∧ s.m_increment ≠ 0 then
        (round (s.rangeTests v / s.m_increment) : ℚ) * s.m_increment
      else s.rangeTests v := by
  have key : ∀ x i : ℚ,
      (if x - ⌊x⌋ < ⌈x⌉ - x then (⌊x⌋ : ℚ) * i else (⌈x⌉ : ℚ) * i) = (round x : ℚ) * i := by
    intro x i
    rw [← snap_choice_eq_round]
    split_ifs <;> rfl
  show (if s.m_snap_to_ticks = true ∧ s.m_increment ≠ 0 then
      (if s.rangeTests v / s.m_increment - ⌊s.rangeTests v / s.m_increment⌋
          < ⌈s.rangeTests v / s.m_increment⌉ - s.rangeTests v / s.m_increment then
        (⌊s.rangeTests v / s.m_increment⌋ : ℚ) * s.m_increment
      else (⌈s.rangeTests v / s.m_increment⌉ : ℚ) * s.m_increment)
    else s.rangeTests v) = _
  rw [key]

/-- The range tests leave a value of the range unchanged. -/
theorem rangeTests_of_mem (s : wxSpinCtrlGenericBase) (v : ℚ)
    (hlo : s.m_min ≤ v) (hhi : v ≤ s.m_max) : s.rangeTests v = v := by
  unfold rangeTests
  simp only []
  rw [if_neg (not_lt.mpr hlo), if_neg (not_lt.mpr hhi)]

/-- For a range with `m_min ≤ m_max` the range tests are the specification's
clamp. -/
theorem rangeTests_eq_clampToRange (s : wxSpinCtrlGenericBase) (v : ℚ)
    (h : s.m_min ≤ s.m_max) : s.rangeTests v = Spec.clampToRange s.m_min s.m_max v := by
  unfold rangeTests Spec.clampToRange
  simp only []
  split_ifs <;> first | rfl | linarith

/-- The range tests applied to `r` give a value between `r` and any value that
already passed the range tests. -/
theorem rangeTests_between (s : wxSpinCtrlGenericBase) (v r : ℚ) :
    (s.rangeTests r - s.rangeTests v) * (s.rangeTests r - r) ≤ 0 := by
  unfold rangeTests
  simp only []
  split_ifs <;> nlinarith

/-- Applying `AdjustAndSnap` twice is the same as applying it once. -/
theorem AdjustAndSnap_idem (s : wxSpinCtrlGenericBase) (v : ℚ) :
    s.AdjustAndSnap (s.AdjustAndSnap v) = s.AdjustAndSnap v := by
  rw [AdjustAndSnap_eq s v]
  by_cases h : s.m_snap_to_ticks = true ∧ s.m_increment ≠ 0
  · rw [if_pos h, AdjustAndSnap_eq, if_pos h]
    have hi : s.m_increment ≠ 0 := h.2
    congr 2
    set c := s.rangeTests v with hc
    set r := (round (c / s.m_increment) : ℚ) * s.m_increment with hr
    apply round_of_between
    have hb := s.rangeTests_between v r
    have e1 : s.rangeTests r / s.m_increment - c / s.m_increment
        = (s.rangeTests r - c) / s.m_increment := by ring
    have e2 : s.rangeTests r / s.m_increment - (round (c / s.m_increment) : ℚ)
        = (s.rangeTests r - r) / s.m_increment := by
      rw [hr]; field_simp; ring
    rw [e1, e2, div_mul_div_comm]
    apply div_nonpos_of_nonpos_of_nonneg hb
    exact mul_self_nonneg _
  · rw [if_neg h, AdjustAndSnap_eq, if_neg h]
    unfold rangeTests
    simp only []
    split_ifs <;> rfl

/-- With snapping in force, a value of the range whose quotient by the
increment is within a half of the integer `n` is snapped to `n * m_increment`. -/
theorem AdjustAndSnap_of_near (s : wxSpinCtrlGenericBase) (v : ℚ) (n : ℤ)
    (hs : s.m_snap_to_ticks = true) (hi : s.m_increment ≠ 0)
    (hlo : s.m_min ≤ v) (hhi : v ≤ s.m_max)
    (h1 : (n : ℚ) - 1 / 2 ≤ v / s.m_increment) (h2 : v / s.m_increment < n + 1 / 2) :
    s.AdjustAndSnap v = n * s.m_increment := by
  rw [AdjustAndSnap_eq, if_pos ⟨hs, hi⟩, rangeTests_of_mem s v hlo hhi,
    round_eq_of_near _ n h1 h2]

/-- Without snapping `AdjustAndSnap` is the range tests alone. -/
theorem AdjustAndSnap_no_snap (s : wxSpinCtrlGenericBase) (v : ℚ)
    (h : s.m_snap_to_ticks = false ∨ s.m_increment = 0) :
    s.AdjustAndSnap v = s.rangeTests v := by
  rw [AdjustAndSnap_eq, if_neg]
  rintro ⟨h1, h2⟩
  rcases h with h | h
  · rw [h1] at h; exact Bool.noConfusion h
  · exact h2 h

end wxSpinCtrlGenericBase

/-! ## Snapping: claims C11, C13 -/

/-- C11 (as amended): with snap-to-ticks on and a positive increment, an
in-range value exactly halfway between two adjacent multiples of the
increment, `v = (k + 1/2) * increment`, is snapped by `AdjustAndSnap` to the
upper multiple `(k + 1) * increment`, not to the lower multiple
`k * increment`: the tie is broken upwards. -/
theorem C11_AdjustAndSnap_tie_goes_up (s : wxSpinCtrlGenericBase) (k : ℤ)
    (hsnap : s.m_snap_to_ticks = true) (hinc : 0 < s.m_increment)
    (hlo : s.m_min ≤ ((k : ℚ) + 1 / 2) * s.m_increment)
    (hhi : ((k : ℚ) + 1 / 2) * s.m_increment ≤ s.m_max) :
    s.AdjustAndSnap (((k : ℚ) + 1 / 2) * s.m_increment) = ((k : ℚ) + 1) * s.m_increment
      ∧ s.AdjustAndSnap (((k : ℚ) + 1 / 2) * s.m_increment) ≠ (k : ℚ) * s.m_increment := by
  have hi : s.m_increment ≠ 0 := ne_of_gt hinc
  have hq : ((k : ℚ) + 1 / 2) * s.m_increment / s.m_increment = (k : ℚ) + 1 / 2 := by
    rw [mul_div_assoc, div_self hi, mul_one]
  have h := s.AdjustAndSnap_of_near (((k : ℚ) + 1 / 2) * s.m_increment) (k + 1) hsnap hi hlo hhi
    (by rw [hq]; push_cast; linarith) (by rw [hq]; push_cast; linarith)
  push_cast at h
  refine ⟨h, ?_⟩
  rw [h]
  intro he
  nlinarith

/-- C11, witness: in the control with range `[0, 100]`, increment 5 and snapping
on, the halfway value `5/2 = (0 + 1/2) * 5` is snapped to 5. -/
theorem C11_AdjustAndSnap_tie_goes_up_witness :
    Example.ticks5.AdjustAndSnap ((((0 : ℤ) : ℚ) + 1 / 2) * Example.ticks5.m_increment)
        = (((0 : ℤ) : ℚ) + 1) * Example.ticks5.m_increment
      ∧ Example.ticks5.AdjustAndSnap ((((0 : ℤ) : ℚ) + 1 / 2) * Example.ticks5.m_increment)
        ≠ ((0 : ℤ) : ℚ) * Example.ticks5.m_increment :=
  C11_AdjustAndSnap_tie_goes_up Example.ticks5 0 rfl
    (by norm_num [Example.ticks5]) (by norm_num [Example.ticks5, wxSpinCtrlGenericBase.Init])
    (by norm_num [Example.ticks5, wxSpinCtrlGenericBase.Init])

/-- C11, counterexample to the claim as written: range `[0, 100]`, increment 5,
snapping on.  The value `5/2` is in range and is exactly halfway between the
multiples 0 and 5; `AdjustAndSnap` returns 5, not the lower multiple 0. -/
theorem C11_tie_counterexample :
    Example.ticks5.m_snap_to_ticks = true
      ∧ Example.ticks5.m_increment = 5
      ∧ Example.ticks5.m_min = 0 ∧ Example.ticks5.m_max = 100
      ∧ (5 / 2 : ℚ) = (((0 : ℤ) : ℚ) + 1 / 2) * 5
      ∧ Example.ticks5.AdjustAndSnap (5 / 2) = 5
      ∧ Example.ticks5.AdjustAndSnap (5 / 2) ≠ ((0 : ℤ) : ℚ) * 5 := by
  have h : Example.ticks5.AdjustAndSnap (5 / 2) = 5 := by
    have := Example.ticks5.AdjustAndSnap_of_near (5 / 2) 1 rfl
      (by norm_num [Example.ticks5])
      (by norm_num [Example.ticks5, wxSpinCtrlGenericBase.Init])
      (by norm_num [Example.ticks5, wxSpinCtrlGenericBase.Init])
      (by norm_num [Example.ticks5]) (by norm_num [Example.ticks5])
    rw [this]
    norm_num [Example.ticks5]
  refine ⟨rfl, rfl, rfl, rfl, by norm_num, h, ?_⟩
  rw [h]
  norm_num

/-- C13: `AdjustAndSnap` is idempotent: for every control state (any range, any
increment, either snap setting) and every value `v`,
`AdjustAndSnap (AdjustAndSnap v) = AdjustAndSnap v`. -/
theorem C13_AdjustAndSnap_idempotent (s : wxSpinCtrlGenericBase) (v : ℚ) :
    s.AdjustAndSnap (s.AdjustAndSnap v) = s.AdjustAndSnap v :=
  s.AdjustAndSnap_idem v

/-- C13, an instance where the first snap leaves the range: with range `[1, 3]`,
increment 5 and snapping on, 2 is snapped to 0, which is below the minimum;
snapping 0 again clamps it to 1 and snaps back to 0. -/
theorem C13_AdjustAndSnap_idempotent_witness :
    Example.ticksOutside.AdjustAndSnap 2 = 0
      ∧ (0 : ℚ) < Example.ticksOutside.m_min
      ∧ Example.ticksOutside.AdjustAndSnap (Example.ticksOutside.AdjustAndSnap 2)
        = Example.ticksOutside.AdjustAndSnap 2 := by
  refine ⟨?_, by norm_num [Example.ticksOutside],
    C13_AdjustAndSnap_idempotent Example.ticksOutside 2⟩
  have := Example.ticksOutside.AdjustAndSnap_of_near 2 0 rfl
    (by norm_num [Example.ticksOutside])
    (by norm_num [Example.ticksOutside])
    (by norm_num [Example.ticksOutside])
    (by norm_num [Example.ticksOutside]) (by norm_num [Example.ticksOutside])
  rw [this]
  norm_num

/-! ## Range adjustment and rejected requests: claims C14, C15 -/

/-- C14: for a range with `min ≤ max` and every `v`, `AdjustToFitInRange v` is
the specification's `adjustWithWrap`: with wrap enabled it is max if `v < min`,
min if `v > max` and `v` otherwise; with wrap disabled it is the non-wrapping
clamp, which is also what `AdjustAndSnap` computes with snap-to-ticks off; in
both modes the result lies in `[min, max]`. -/
theorem C14_AdjustToFitInRange_refines_adjustWithWrap (s : wxSpinCtrlGenericBase) (v : ℚ)
    (h : s.m_min ≤ s.m_max) :
    s.AdjustToFitInRange v = Spec.adjustWithWrap s.wxSP_WRAP s.m_min s.m_max v
      ∧ (s.wxSP_WRAP = true →
          s.AdjustToFitInRange v
            = if v < s.m_min then s.m_max else if v > s.m_max then s.m_min else v)
      ∧ (s.wxSP_WRAP = false →
          s.AdjustToFitInRange v
              = (if v < s.m_min then s.m_min else if v > s.m_max then s.m_max else v)
            ∧ s.AdjustToFitInRange v
              = wxSpinCtrlGenericBase.AdjustAndSnap { s with m_snap_to_ticks := false } v)
      ∧ (s.m_min ≤ s.AdjustToFitInRange v ∧ s.AdjustToFitInRange v ≤ s.m_max) := by
  have hw : s.wxSP_WRAP = true →
      s.AdjustToFitInRange v
        = if v < s.m_min then s.m_max else if v > s.m_max then s.m_min else v := by
    intro hwrap
    unfold wxSpinCtrlGenericBase.AdjustToFitInRange
    simp only [hwrap, if_true]
    by_cases h1 : v < s.m_min
    · rw [if_pos h1, if_pos h1, if_neg (lt_irrefl _)]
    · rw [if_neg h1, if_neg h1]
  have hn : s.wxSP_WRAP = false →
      s.AdjustToFitInRange v
        = if v < s.m_min then s.m_min else if v > s.m_max then s.m_max else v := by
    intro hwrap
    unfold wxSpinCtrlGenericBase.AdjustToFitInRange
    simp only [hwrap, Bool.false_eq_true, if_false]
    by_cases h1 : v < s.m_min
    · rw [if_pos h1, if_pos h1, if_neg (not_lt.mpr h)]
    · rw [if_neg h1, if_neg h1]
  refine ⟨?_, hw, ?_, ?_⟩
  · unfold Spec.adjustWithWrap Spec.clampToRange
    cases hwrap : s.wxSP_WRAP
    · rw [hn hwrap]; simp
    · rw [hw hwrap]; simp
  · intro hwrap
    refine ⟨hn hwrap, ?_⟩
    have e := wxSpinCtrlGenericBase.AdjustAndSnap_no_snap
      { s with m_snap_to_ticks := false } v (Or.inl rfl)
    have e2 := wxSpinCtrlGenericBase.rangeTests_eq_clampToRange
      { s with m_snap_to_ticks := false } v h
    rw [e, e2, hn hwrap]
    rfl
  · cases hwrap : s.wxSP_WRAP
    · rw [hn hwrap]
      split_ifs <;> constructor <;> linarith
    · rw [hw hwrap]
      split_ifs <;> constructor <;> linarith

/-- C14, witness: the wrapping control with range `[0, 10]`: 11 wraps to 0 and
-1 wraps to 10, both inside the range. -/
theorem C14_AdjustToFitInRange_refines_adjustWithWrap_witness :
    Example.wrap10.m_min ≤ Example.wrap10.m_max
      ∧ Example.wrap10.AdjustToFitInRange 11 = 0
      ∧ Example.wrap10.AdjustToFitInRange (-1) = 10 := by
  have h : Example.wrap10.m_min ≤ Example.wrap10.m_max := by
    norm_num [Example.wrap10, wxSpinCtrlGenericBase.Init]
  refine ⟨h, ?_, ?_⟩
  · rw [(C14_AdjustToFitInRange_refines_adjustWithWrap Example.wrap10 11 h).2.1 rfl]
    norm_num [Example.wrap10, wxSpinCtrlGenericBase.Init]
  · rw [(C14_AdjustToFitInRange_refines_adjustWithWrap Example.wrap10 (-1) h).2.1 rfl]
    norm_num [Example.wrap10, wxSpinCtrlGenericBase.Init]

/-- C15: `SetBase b` returns false exactly when `b` is neither 10 nor 16, or
`b` differs from the current base and the current range is incompatible with
`b`, which means a negative bound with a non-decimal base; whenever `SetBase`
returns false the whole state (base, range, stored value, displayed text) is
unchanged; and `DoSetRange` with a range incompatible with the current base
leaves the whole state unchanged. -/
theorem C15_rejected_requests_keep_state (s : wxSpinCtrlGenericBase) (b : ℤ) (lo hi : ℚ) :
    ((wxSpinCtrl.SetBase s b).1 = false ↔
        ((b ≠ 10 ∧ b ≠ 16) ∨
          (b ≠ s.m_base ∧ wxSpinCtrlImpl.IsBaseCompatibleWithRange s.m_min s.m_max b = false)))
      ∧ (wxSpinCtrlImpl.IsBaseCompatibleWithRange s.m_min s.m_max b = false ↔
          (b ≠ 10 ∧ (s.m_min < 0 ∨ s.m_max < 0)))
      ∧ ((wxSpinCtrl.SetBase s b).1 = false → (wxSpinCtrl.SetBase s b).2 = s)
      ∧ (wxSpinCtrlImpl.IsBaseCompatibleWithRange lo hi s.GetBase = false →
          s.DoSetRange lo hi = s) := by
  refine ⟨?_, ?_, ?_, ?_⟩
  · unfold wxSpinCtrl.SetBase
    by_cases h1 : b ≠ 10 ∧ b ≠ 16
    · simp [h1]
    · by_cases h2 : b = s.m_base
      · rw [if_neg h1, if_pos h2]
        simp only [Bool.true_eq_false, false_iff]
        rintro (h | h)
        · exact h1 h
        · exact h.1 h2
      · by_cases h3 : wxSpinCtrlImpl.IsBaseCompatibleWithRange s.m_min s.m_max b = false
        · rw [if_neg h1, if_neg h2, if_pos h3]
          simp only [true_iff]
          exact Or.inr ⟨h2, h3⟩
        · rw [if_neg h1, if_neg h2, if_neg h3]
          have hr : ¬ ((b ≠ 10 ∧ b ≠ 16) ∨
              (b ≠ s.m_base ∧
                wxSpinCtrlImpl.IsBaseCompatibleWithRange s.m_min s.m_max b = false)) := by
            rintro (h | h)
            · exact h1 h
            · exact h3 h.2
          simp only [hr, iff_false]
          cases s.DoTextToValue s.m_textCtrl.value <;> simp
  · unfold wxSpinCtrlImpl.IsBaseCompatibleWithRange
    simp only [decide_eq_false_iff_not, not_or, not_and_or, not_le]
  · unfold wxSpinCtrl.SetBase
    by_cases h1 : b ≠ 10 ∧ b ≠ 16
    · simp [h1]
    · by_cases h2 : b = s.m_base
      · rw [if_neg h1, if_pos h2]; simp
      · by_cases h3 : wxSpinCtrlImpl.IsBaseCompatibleWithRange s.m_min s.m_max b = false
        · rw [if_neg h1, if_neg h2, if_pos h3]; simp
        · rw [if_neg h1, if_neg h2, if_neg h3]
          cases s.DoTextToValue s.m_textCtrl.value <;> simp
  · intro h
    unfold wxSpinCtrlGenericBase.DoSetRange
    rw [if_pos h]

/-- C15, instances: base 8 is refused; base 16 is refused for the base-10 control
with range `[-5, 10]`; a range with a negative bound is refused by the base-16
control; each time the state is unchanged. -/
theorem C15_rejected_requests_keep_state_witness :
    (wxSpinCtrl.SetBase Example.hex255 8).1 = false
      ∧ (wxSpinCtrl.SetBase Example.hex255 8).2 = Example.hex255
      ∧ (wxSpinCtrl.SetBase Example.negativeRange 16).1 = false
      ∧ (wxSpinCtrl.SetBase Example.negativeRange 16).2 = Example.negativeRange
      ∧ Example.hex255.DoSetRange (-5) 10 = Example.hex255 := by
  have h8 := C15_rejected_requests_keep_state Example.hex255 8 (-5) 10
  have h16 := C15_rejected_requests_keep_state Example.negativeRange 16 0 0
  have e8 : (wxSpinCtrl.SetBase Example.hex255 8).1 = false :=
    h8.1.mpr (Or.inl ⟨by decide, by decide⟩)
  have c16 : wxSpinCtrlImpl.IsBaseCompatibleWithRange Example.negativeRange.m_min
      Example.negativeRange.m_max 16 = false :=
    h16.2.1.mpr ⟨by decide, Or.inl (by norm_num [Example.negativeRange])⟩
  have e16 : (wxSpinCtrl.SetBase Example.negativeRange 16).1 = false :=
    h16.1.mpr (Or.inr ⟨by decide, c16⟩)
  refine ⟨e8, h8.2.2.1 e8, e16, h16.2.2.1 e16, h8.2.2.2 ?_⟩
  unfold wxSpinCtrlImpl.IsBaseCompatibleWithRange
  simp only [decide_eq_false_iff_not, not_or, not_and_or, not_le]
  exact ⟨by decide, Or.inl (by norm_num)⟩

/-! ## The commit `DoSetValue` -/

namespace wxSpinCtrlGenericBase

/-- The events after a commit that changed the control: a text event is logged
for `SendEvent_Text` and nothing for `SendEvent_None`. -/
theorem DoSetValue_changed (s : wxSpinCtrlGenericBase) (v : ℚ) (mode : SendEvent)
    (h : s.AdjustAndSnap v ≠ s.m_value
      ∨ s.DoValueToText (s.AdjustAndSnap v) ≠ s.m_textCtrl.value) :
    s.DoSetValue v mode =
      (true,
        { s with
          m_value :=
            match s.DoTextToValue (s.DoValueToText (s.AdjustAndSnap v)) with
            | some d => d
            | none => s.AdjustAndSnap v,
          m_textCtrl := { value := s.DoValueToText (s.AdjustAndSnap v), modified := false },
          events :=
            match mode with
            | SendEvent.SendEvent_None => s.events
            | SendEvent.SendEvent_Text =>
              s.events ++ [wxEvent.wxEVT_TEXT (s.DoValueToText (s.AdjustAndSnap v))] }) := by
  unfold DoSetValue
  simp only []
  rw [if_pos h]

/-- A commit of a value that is already stored and displayed does nothing. -/
theorem DoSetValue_unchanged (s : wxSpinCtrlGenericBase) (v : ℚ) (mode : SendEvent)
    (h1 : s.AdjustAndSnap v = s.m_value)
    (h2 : s.DoValueToText (s.AdjustAndSnap v) = s.m_textCtrl.value) :
    s.DoSetValue v mode = (false, s) := by
  unfold DoSetValue
  simp only []
  rw [if_neg]
  rintro (h | h)
  · exact h h1
  · exact h h2

/-- The flag returned by `DoSetValue` is the test of line 595. -/
theorem DoSetValue_fst (s : wxSpinCtrlGenericBase) (v : ℚ) (mode : SendEvent) :
    (s.DoSetValue v mode).1 = true ↔
      (s.AdjustAndSnap v ≠ s.m_value
        ∨ s.DoValueToText (s.AdjustAndSnap v) ≠ s.m_textCtrl.value) := by
  by_cases h : s.AdjustAndSnap v ≠ s.m_value
      ∨ s.DoValueToText (s.AdjustAndSnap v) ≠ s.m_textCtrl.value
  · rw [DoSetValue_changed s v mode h]
    simp [h]
  · have h' := h
    push_neg at h'
    rw [DoSetValue_unchanged s v mode h'.1 h'.2]
    simp [h]

/-- A commit whose text is read back as `p` stores `p` and shows the text. -/
theorem DoSetValue_eval (s : wxSpinCtrlGenericBase) (v : ℚ) (mode : SendEvent)
    (val p : ℚ) (str : String)
    (hval : s.AdjustAndSnap v = val) (hstr : s.DoValueToText val = str)
    (hne : val ≠ s.m_value ∨ str ≠ s.m_textCtrl.value)
    (hp : s.DoTextToValue str = some p) :
    s.DoSetValue v mode =
      (true,
        { s with
          m_value := p,
          m_textCtrl := { value := str, modified := false },
          events :=
            match mode with
            | SendEvent.SendEvent_None => s.events
            | SendEvent.SendEvent_Text => s.events ++ [wxEvent.wxEVT_TEXT str] }) := by
  subst hval
  subst hstr
  rw [DoSetValue_changed s v mode hne, hp]

end wxSpinCtrlGenericBase

/-! ## Formatting and parsing of concrete values -/

/-- Truncation of an integer is the integer. -/
theorem castToLong_intCast (n : ℤ) : castToLong (n : ℚ) = n := by
  unfold castToLong
  split_ifs <;> simp

/-- Rounding of `ToString`: a number in `[n, n + 1/2)` rounds to `n`. -/
theorem wxNumberFormatter.roundHalfEven_of_lt (r : ℚ) (n : ℤ)
    (h1 : (n : ℚ) ≤ r) (h2 : r < n + 1 / 2) : wxNumberFormatter.roundHalfEven r = n := by
  have hf : ⌊r⌋ = n := by
    rw [Int.floor_eq_iff]
    constructor <;> linarith
  unfold wxNumberFormatter.roundHalfEven
  simp only [hf]
  rw [if_pos (by linarith)]

/-- Rounding of `ToString`: a number in `(n + 1/2, n + 1]` rounds to `n + 1`. -/
theorem wxNumberFormatter.roundHalfEven_of_gt (r : ℚ) (n : ℤ)
    (h1 : (n : ℚ) + 1 / 2 < r) (h2 : r < n + 1) : wxNumberFormatter.roundHalfEven r = n + 1 := by
  have hf : ⌊r⌋ = n := by
    rw [Int.floor_eq_iff]
    constructor <;> linarith
  unfold wxNumberFormatter.roundHalfEven
  simp only [hf]
  rw [if_neg (by linarith), if_pos (by linarith)]

/-- With no digits after the point, a non-negative value in `[n, n + 1/2)` is
written as the decimal numeral of `n`. -/
theorem wxNumberFormatter.ToString_zero_digits (val : ℚ) (n : ℕ)
    (h1 : (n : ℚ) ≤ val) (h2 : val < n + 1 / 2) :
    wxNumberFormatter.ToString val 0 = Nat.repr n := by
  have h0 : 0 ≤ val := le_trans (Nat.cast_nonneg n) h1
  have hr : wxNumberFormatter.roundHalfEven (|val| * 10 ^ 0) = (n : ℤ) := by
    apply wxNumberFormatter.roundHalfEven_of_lt
    · rw [abs_of_nonneg h0]; push_cast; linarith
    · rw [abs_of_nonneg h0]; push_cast; linarith
  unfold wxNumberFormatter.ToString
  simp only [hr, if_neg (not_lt.mpr h0)]
  simp

/-- Text of an integer control in base 10: the decimal numeral of the value. -/
theorem wxSpinCtrl.DoValueToText_intCast (s : wxSpinCtrlGenericBase) (n : ℤ)
    (hk : s.kind = Kind.wxSpinCtrl) (hb : s.m_base = 10) :
    s.DoValueToText (n : ℚ) = wxString.FormatLong n := by
  unfold wxSpinCtrlGenericBase.DoValueToText wxSpinCtrl.DoValueToText
  rw [hk]
  simp only [hb, castToLong_intCast]
  rfl

/-- Reading of a text by an integer control in base 10. -/
theorem wxSpinCtrl.DoTextToValue_base10 (s : wxSpinCtrlGenericBase) (text : String)
    (hk : s.kind = Kind.wxSpinCtrl) (hb : s.m_base = 10) :
    s.DoTextToValue text = (wxString.ToLong text 10).map (fun n => (n : ℚ)) := by
  unfold wxSpinCtrlGenericBase.DoTextToValue wxSpinCtrl.DoTextToValue
  rw [hk]
  simp only [hb]
  cases h : wxString.ToLong text (10 : ℤ).toNat <;>
    simp only [show (10 : ℤ).toNat = 10 from rfl] at h <;> simp [h]

/-- Text of a floating-point control. -/
theorem wxSpinCtrlDouble.DoValueToText_eq (s : wxSpinCtrlGenericBase) (val : ℚ)
    (hk : s.kind = Kind.wxSpinCtrlDouble) :
    s.DoValueToText val = wxNumberFormatter.ToString val s.m_digits := by
  unfold wxSpinCtrlGenericBase.DoValueToText wxSpinCtrlDouble.DoValueToText
  rw [hk]

/-- Reading of a text by a floating-point control. -/
theorem wxSpinCtrlDouble.DoTextToValue_eq (s : wxSpinCtrlGenericBase) (text : String)
    (hk : s.kind = Kind.wxSpinCtrlDouble) :
    s.DoTextToValue text = wxNumberFormatter.FromString text := by
  unfold wxSpinCtrlGenericBase.DoTextToValue wxSpinCtrlDouble.DoTextToValue
  rw [hk]

/-- The texts `0` and `1` read as floating-point numbers. -/
theorem wxNumberFormatter.FromString_zero_one :
    wxNumberFormatter.FromString "0" = some 0 ∧ wxNumberFormatter.FromString "1" = some 1 := by
  constructor <;>
    simp [wxNumberFormatter.FromString, wxNumberFormatter.parseDecimal, wxString.parseNat,
      wxString.parseDigits, wxString.digitValue]

/-- A commit in an integer control in base 10, with the value, its numeral and
the reading of the numeral given. -/
theorem wxSpinCtrl.DoSetValue_eval_long (s : wxSpinCtrlGenericBase) (v : ℚ) (mode : SendEvent)
    (n p : ℤ) (str : String)
    (hk : s.kind = Kind.wxSpinCtrl) (hb : s.m_base = 10)
    (hval : s.AdjustAndSnap v = (n : ℚ)) (hstr : wxString.FormatLong n = str)
    (hne : (n : ℚ) ≠ s.m_value ∨ str ≠ s.m_textCtrl.value)
    (hp : wxString.ToLong str 10 = some p) :
    s.DoSetValue v mode =
      (true,
        { s with
          m_value := (p : ℚ),
          m_textCtrl := { value := str, modified := false },
          events :=
            match mode with
            | SendEvent.SendEvent_None => s.events
            | SendEvent.SendEvent_Text => s.events ++ [wxEvent.wxEVT_TEXT str] }) := by
  apply s.DoSetValue_eval v mode (n : ℚ) (p : ℚ) str hval _ hne
  · rw [wxSpinCtrl.DoTextToValue_base10 s str hk hb, hp]
    rfl
  · rw [wxSpinCtrl.DoValueToText_intCast s n hk hb, hstr]

/-- A commit in a floating-point control, with the value, its text and the
reading of the text given. -/
theorem wxSpinCtrlDouble.DoSetValue_eval_double (s : wxSpinCtrlGenericBase) (v : ℚ) (mode : SendEvent)
    (val p : ℚ) (str : String)
    (hk : s.kind = Kind.wxSpinCtrlDouble)
    (hval : s.AdjustAndSnap v = val)
    (hstr : wxNumberFormatter.ToString val s.m_digits = str)
    (hne : val ≠ s.m_value ∨ str ≠ s.m_textCtrl.value)
    (hp : wxNumberFormatter.FromString str = some p) :
    s.DoSetValue v mode =
      (true,
        { s with
          m_value := p,
          m_textCtrl := { value := str, modified := false },
          events :=
            match mode with
            | SendEvent.SendEvent_None => s.events
            | SendEvent.SendEvent_Text => s.events ++ [wxEvent.wxEVT_TEXT str] }) := by
  apply s.DoSetValue_eval v mode val p str hval _ hne
  · rw [wxSpinCtrlDouble.DoTextToValue_eq s str hk, hp]
  · rw [wxSpinCtrlDouble.DoValueToText_eq s val hk, hstr]

/-- Without snapping, a value of the range is kept by `AdjustAndSnap`. -/
theorem wxSpinCtrlGenericBase.AdjustAndSnap_of_mem (s : wxSpinCtrlGenericBase) (v : ℚ)
    (h : s.m_snap_to_ticks = false ∨ s.m_increment = 0)
    (hlo : s.m_min ≤ v) (hhi : v ≤ s.m_max) : s.AdjustAndSnap v = v := by
  rw [s.AdjustAndSnap_no_snap v h, s.rangeTests_of_mem v hlo hhi]

/-! ## The event handlers -/

namespace wxSpinCtrlGenericBase

/-- With no pending edit `SyncSpinToText` does nothing. -/
theorem SyncSpinToText_not_modified (s : wxSpinCtrlGenericBase) (mode : SendEvent)
    (h : s.m_textCtrl.modified = false) : s.SyncSpinToText mode = (false, s) := by
  unfold SyncSpinToText
  rw [if_pos h]

/-- With no pending edit the control after the opening sync is the control
itself. -/
theorem synced_not_modified (s : wxSpinCtrlGenericBase)
    (h : s.m_textCtrl.modified = false) : s.synced = s := by
  unfold synced
  rw [s.SyncSpinToText_not_modified _ h]

/-- A commit does not move the recorded spin-button position. -/
theorem DoSetValue_spin_value (s : wxSpinCtrlGenericBase) (v : ℚ) (mode : SendEvent) :
    (s.DoSetValue v mode).2.m_spin_value = s.m_spin_value := by
  unfold DoSetValue
  simp only []
  split_ifs <;> rfl

/-- The opening sync does not move the recorded spin-button position. -/
theorem synced_spin_value (s : wxSpinCtrlGenericBase) :
    s.synced.m_spin_value = s.m_spin_value := by
  unfold synced SyncSpinToText
  split_ifs
  · rfl
  · exact DoSetValue_spin_value _ _ _

/-- `OnSpinButton` in terms of the control after the opening sync: a wrap of
the button only records the position; otherwise the candidate
`m_value + step * m_increment` is committed, the step being the direction,
scaled by the position change when both positions lie on the same side of
zero. -/
theorem OnSpinButton_eq (s : wxSpinCtrlGenericBase) (event : wxSpinEvent) :
    s.OnSpinButton event =
      if |event.position - s.synced.m_spin_value| > SPINCTRLBUT_MAX then
        { s.synced with m_spin_value := event.position }
      else
        s.synced.stepperCommit event.position
          (s.synced.m_value +
            (if (event.position ≥ 0 ∧ s.synced.m_spin_value ≥ 0)
                ∨ (event.position ≤ 0 ∧ s.synced.m_spin_value ≤ 0) then
              (if event.lineUp then (1 : ℚ) else -1)
                * ((|event.position - s.synced.m_spin_value| : ℤ) : ℚ)
            else (if event.lineUp then (1 : ℚ) else -1)) * s.synced.m_increment) := by
  rfl

end wxSpinCtrlGenericBase

namespace wxSpinCtrlGenericBase

/-- A value of the range is kept by `AdjustToFitInRange`. -/
theorem AdjustToFitInRange_of_mem (s : wxSpinCtrlGenericBase) (v : ℚ)
    (hlo : s.m_min ≤ v) (hhi : v ≤ s.m_max) : s.AdjustToFitInRange v = v := by
  unfold AdjustToFitInRange
  simp only []
  rw [if_neg (not_lt.mpr hlo), if_neg (not_lt.mpr hhi)]

/-- The end of `OnSpinButton` when the commit changes the control: the new
position, the value read back from the new text, the new text, and the text
event followed by the change event. -/
theorem stepperCommit_changed (s : wxSpinCtrlGenericBase) (position : ℤ) (candidate : ℚ)
    (val p : ℚ) (str : String)
    (hval : s.AdjustAndSnap (s.AdjustToFitInRange candidate) = val)
    (hstr : s.DoValueToText val = str)
    (hne : val ≠ s.m_value ∨ str ≠ s.m_textCtrl.value)
    (hp : (match s.DoTextToValue str with
      | some d => d
      | none => val) = p) :
    s.stepperCommit position candidate =
      { s with
        m_spin_value := position,
        m_value := p,
        m_textCtrl := { value := str, modified := false },
        events := s.events ++ [wxEvent.wxEVT_TEXT str, wxEvent.wxEVT_SPINCTRL p str] } := by
  subst hval
  subst hstr
  subst hp
  have h := DoSetValue_changed { s with m_spin_value := position }
    (s.AdjustToFitInRange candidate) SendEvent.SendEvent_Text hne
  unfold stepperCommit
  simp only []
  rw [h]
  simp only [if_true, DoSendEvent, List.append_assoc, List.singleton_append]
  rfl

/-- The end of `OnSpinButton` when the commit changes nothing: only the position
is recorded. -/
theorem stepperCommit_unchanged (s : wxSpinCtrlGenericBase) (position : ℤ) (candidate : ℚ)
    (h1 : s.AdjustAndSnap (s.AdjustToFitInRange candidate) = s.m_value)
    (h2 : s.DoValueToText (s.AdjustAndSnap (s.AdjustToFitInRange candidate))
      = s.m_textCtrl.value) :
    s.stepperCommit position candidate = { s with m_spin_value := position } := by
  have h := DoSetValue_unchanged { s with m_spin_value := position }
    (s.AdjustToFitInRange candidate) SendEvent.SendEvent_Text h1 h2
  unfold stepperCommit
  simp only []
  rw [h]
  rfl

end wxSpinCtrlGenericBase

/-! ## The spin button: claims C7, C8, C9 -/

/-- C9: a spin-button event whose position differs from the last recorded
position by more than 32000 (a wrap of the button), arriving with no pending
text edit, only records the new position: the stored value, the text field and
the event log are unchanged. -/
theorem C9_OnSpinButton_wrap_pass_through (s : wxSpinCtrlGenericBase) (event : wxSpinEvent)
    (hmod : s.m_textCtrl.modified = false)
    (hwrap : |event.position - s.m_spin_value| > SPINCTRLBUT_MAX) :
    s.OnSpinButton event = { s with m_spin_value := event.position }
      ∧ (s.OnSpinButton event).m_value = s.m_value
      ∧ (s.OnSpinButton event).m_textCtrl = s.m_textCtrl
      ∧ (s.OnSpinButton event).events = s.events
      ∧ (s.OnSpinButton event).m_spin_value = event.position := by
  have h : s.OnSpinButton event = { s with m_spin_value := event.position } := by
    rw [s.OnSpinButton_eq event, s.synced_not_modified hmod, if_pos]
    exact hwrap
  rw [h]
  exact ⟨rfl, rfl, rfl, rfl, rfl⟩

/-- C9, witness: the control at value 50 with the button at position 32000; an
up event reporting position -32000 changes nothing but the position. -/
theorem C9_OnSpinButton_wrap_pass_through_witness :
    Example.at50Top.OnSpinButton { position := -32000, lineUp := true }
      = { Example.at50Top with m_spin_value := -32000 } :=
  (C9_OnSpinButton_wrap_pass_through Example.at50Top { position := -32000, lineUp := true }
    rfl (by decide)).1

/-- C8 (as amended): for a spin-button event that is not a wrap
(`|d| ≤ 32000` for the position change `d`, measured after the pending edit
was flushed), the candidate handed to `AdjustToFitInRange` is
`current + dir * |d| * increment` when the new and the last position lie on the
same side of zero (both `≥ 0` or both `≤ 0`), and `current + dir * increment`
when they lie strictly on opposite sides; for `|d| = 1` both give
`current + dir * increment`. -/
theorem C8_OnSpinButton_acceleration (s : wxSpinCtrlGenericBase) (event : wxSpinEvent)
    (hd : |event.position - s.synced.m_spin_value| ≤ SPINCTRLBUT_MAX) :
    (((event.position ≥ 0 ∧ s.synced.m_spin_value ≥ 0)
        ∨ (event.position ≤ 0 ∧ s.synced.m_spin_value ≤ 0)) →
      s.OnSpinButton event =
        s.synced.stepperCommit event.position
          (s.synced.m_value
            + (if event.lineUp then (1 : ℚ) else -1)
              * ((|event.position - s.synced.m_spin_value| : ℤ) : ℚ) * s.synced.m_increment))
    ∧ (¬ ((event.position ≥ 0 ∧ s.synced.m_spin_value ≥ 0)
        ∨ (event.position ≤ 0 ∧ s.synced.m_spin_value ≤ 0)) →
      s.OnSpinButton event =
        s.synced.stepperCommit event.position
          (s.synced.m_value + (if event.lineUp then (1 : ℚ) else -1) * s.synced.m_increment))
    ∧ (|event.position - s.synced.m_spin_value| = 1 →
      s.OnSpinButton event =
        s.synced.stepperCommit event.position
          (s.synced.m_value + (if event.lineUp then (1 : ℚ) else -1) * s.synced.m_increment)) := by
  have hn : ¬ (|event.position - s.synced.m_spin_value| > SPINCTRLBUT_MAX) := not_lt.mpr hd
  refine ⟨?_, ?_, ?_⟩
  · intro h
    rw [s.OnSpinButton_eq event, if_neg hn, if_pos h]
  · intro h
    rw [s.OnSpinButton_eq event, if_neg hn, if_neg h]
  · intro h1
    rw [s.OnSpinButton_eq event, if_neg hn, h1]
    split_ifs <;> simp

/-- C8, witness: the control at value 5 with the button at position 0; an up
event reporting position 3 commits the candidate `5 + 1 * 3 * 1`. -/
theorem C8_OnSpinButton_acceleration_witness :
    Example.at5.OnSpinButton { position := 3, lineUp := true }
      = Example.at5.synced.stepperCommit 3
          (Example.at5.synced.m_value
            + (if true then (1 : ℚ) else -1)
              * ((|3 - Example.at5.synced.m_spin_value| : ℤ) : ℚ)
              * Example.at5.synced.m_increment) :=
  (C8_OnSpinButton_acceleration Example.at5 { position := 3, lineUp := true }
    (by rw [Example.at5.synced_spin_value]; decide)).1
    (Or.inl ⟨by decide, by rw [Example.at5.synced_spin_value]; decide⟩)

/-- C8, counterexample to the claim as written: value 5, increment 1, the
button last at position -1, an up event reporting position 1 with no pending
edit.  The position change is 2, so the claim gives the candidate
`5 + 1 * 2 * 1 = 7` and the value 7; as the positions lie on opposite sides of
zero `OnSpinButton` uses the step 1 and the value becomes 6. -/
theorem C8_acceleration_counterexample :
    Example.at5Below.m_textCtrl.modified = false
      ∧ |(1 : ℤ) - Example.at5Below.m_spin_value| = 2
      ∧ Example.at5Below.m_value = 5 ∧ Example.at5Below.m_increment = 1
      ∧ (Example.at5Below.OnSpinButton { position := 1, lineUp := true }).m_value = 6
      ∧ (Example.at5Below.stepperCommit 1 (5 + 1 * 2 * 1)).m_value = 7 := by
  have hs : Example.at5Below.synced = Example.at5Below :=
    Example.at5Below.synced_not_modified rfl
  have hlo : Example.at5Below.m_min = 0 := rfl
  have hhi : Example.at5Below.m_max = 100 := rfl
  have h6 : Example.at5Below.stepperCommit 1 (5 + 1 * 1) =
      { Example.at5Below with
        m_spin_value := 1, m_value := 6,
        m_textCtrl := { value := "6", modified := false },
        events := Example.at5Below.events
          ++ [wxEvent.wxEVT_TEXT "6", wxEvent.wxEVT_SPINCTRL 6 "6"] } := by
    have ha : Example.at5Below.AdjustToFitInRange (5 + 1 * 1) = 6 := by
      rw [Example.at5Below.AdjustToFitInRange_of_mem _ (by rw [hlo]; norm_num)
        (by rw [hhi]; norm_num)]
      norm_num
    have hv : Example.at5Below.AdjustAndSnap 6 = ((6 : ℤ) : ℚ) := by
      rw [Example.at5Below.AdjustAndSnap_of_mem 6 (Or.inl rfl) (by rw [hlo]; norm_num)
        (by rw [hhi]; norm_num)]
      norm_num
    have hstr : Example.at5Below.DoValueToText ((6 : ℤ) : ℚ) = "6" := by
      rw [wxSpinCtrl.DoValueToText_intCast _ 6 rfl rfl]; decide
    have hp : Example.at5Below.DoTextToValue "6" = some 6 := by
      rw [wxSpinCtrl.DoTextToValue_base10 _ _ rfl rfl]
      have : wxString.ToLong "6" 10 = some 6 := by decide
      rw [this]; simp
    apply Example.at5Below.stepperCommit_changed 1 _ ((6 : ℤ) : ℚ) 6 "6"
    · rw [ha]; exact hv
    · exact hstr
    · left
      show ((6 : ℤ) : ℚ) ≠ 5
      norm_num
    · rw [hp]
  have h7 : Example.at5Below.stepperCommit 1 (5 + 1 * 2 * 1) =
      { Example.at5Below with
        m_spin_value := 1, m_value := 7,
        m_textCtrl := { value := "7", modified := false },
        events := Example.at5Below.events
          ++ [wxEvent.wxEVT_TEXT "7", wxEvent.wxEVT_SPINCTRL 7 "7"] } := by
    have ha : Example.at5Below.AdjustToFitInRange (5 + 1 * 2 * 1) = 7 := by
      rw [Example.at5Below.AdjustToFitInRange_of_mem _ (by rw [hlo]; norm_num)
        (by rw [hhi]; norm_num)]
      norm_num
    have hv : Example.at5Below.AdjustAndSnap 7 = ((7 : ℤ) : ℚ) := by
      rw [Example.at5Below.AdjustAndSnap_of_mem 7 (Or.inl rfl) (by rw [hlo]; norm_num)
        (by rw [hhi]; norm_num)]
      norm_num
    have hstr : Example.at5Below.DoValueToText ((7 : ℤ) : ℚ) = "7" := by
      rw [wxSpinCtrl.DoValueToText_intCast _ 7 rfl rfl]; decide
    have hp : Example.at5Below.DoTextToValue "7" = some 7 := by
      rw [wxSpinCtrl.DoTextToValue_base10 _ _ rfl rfl]
      have : wxString.ToLong "7" 10 = some 7 := by decide
      rw [this]; simp
    apply Example.at5Below.stepperCommit_changed 1 _ ((7 : ℤ) : ℚ) 7 "7"
    · rw [ha]; exact hv
    · exact hstr
    · left
      show ((7 : ℤ) : ℚ) ≠ 5
      norm_num
    · rw [hp]
  refine ⟨rfl, by decide, rfl, rfl, ?_, ?_⟩
  · have h := Example.at5Below.OnSpinButton_eq { position := 1, lineUp := true }
    rw [hs] at h
    rw [h]
    have hm : Example.at5Below.m_spin_value = -1 := rfl
    have hv5 : Example.at5Below.m_value = 5 := rfl
    have hi1 : Example.at5Below.m_increment = 1 := rfl
    simp only [hm, hv5, hi1]
    rw [if_neg (by decide), if_neg (by decide)]
    simp only [if_true]
    rw [h6]
  · rw [h7]

/-- An up event one position above the last one, with no pending edit, commits
the candidate `m_value + m_increment`. -/
theorem wxSpinCtrlGenericBase.OnSpinButton_single_up (s : wxSpinCtrlGenericBase)
    (event : wxSpinEvent)
    (hmod : s.m_textCtrl.modified = false)
    (hpos : event.position = s.m_spin_value + 1)
    (hup : event.lineUp = true) :
    s.OnSpinButton event = s.stepperCommit event.position (s.m_value + s.m_increment) := by
  have hd : |event.position - s.m_spin_value| = 1 := by
    rw [hpos]; simp
  have hsame : (event.position ≥ 0 ∧ s.m_spin_value ≥ 0)
      ∨ (event.position ≤ 0 ∧ s.m_spin_value ≤ 0) := by
    rw [hpos]
    rcases le_or_lt 0 s.m_spin_value with h | h
    · left; constructor <;> omega
    · right; constructor <;> omega
  rw [s.OnSpinButton_eq event, s.synced_not_modified hmod, if_neg, if_pos hsame, hd, hup]
  · simp
  · rw [hd]; decide

/-- C7 (as amended): for a control with no pending text edit and an up event
whose position is the last position plus 1, let `val` be
`AdjustAndSnap (AdjustToFitInRange (current + increment))`.  If `val` differs
from the stored value or its text differs from the displayed text, the text
becomes the text of `val`, the stored value becomes what that text reads back
as (`val` itself only if the text does not parse), and a text event followed by
the change event is logged; otherwise only the position is recorded and no
event is logged.  In both cases the new stored value is `val` whenever the text
of `val` reads back as `val`. -/
theorem C7_OnSpinButton_single_step (s : wxSpinCtrlGenericBase) (event : wxSpinEvent)
    (val : ℚ)
    (hmod : s.m_textCtrl.modified = false)
    (hpos : event.position = s.m_spin_value + 1)
    (hup : event.lineUp = true)
    (hval : s.AdjustAndSnap (s.AdjustToFitInRange (s.m_value + s.m_increment)) = val) :
    ((val ≠ s.m_value ∨ s.DoValueToText val ≠ s.m_textCtrl.value) →
        s.OnSpinButton event =
          { s with
            m_spin_value := event.position,
            m_value :=
              (match s.DoTextToValue (s.DoValueToText val) with
              | some d => d
              | none => val),
            m_textCtrl := { value := s.DoValueToText val, modified := false },
            events := s.events ++
              [wxEvent.wxEVT_TEXT (s.DoValueToText val),
                wxEvent.wxEVT_SPINCTRL
                  (match s.DoTextToValue (s.DoValueToText val) with
                  | some d => d
                  | none => val)
                  (s.DoValueToText val)] })
      ∧ (¬ (val ≠ s.m_value ∨ s.DoValueToText val ≠ s.m_textCtrl.value) →
          s.OnSpinButton event = { s with m_spin_value := event.position })
      ∧ (s.DoTextToValue (s.DoValueToText val) = some val →
          (s.OnSpinButton event).m_value = val) := by
  have hcand := s.OnSpinButton_single_up event hmod hpos hup
  have hc : (val ≠ s.m_value ∨ s.DoValueToText val ≠ s.m_textCtrl.value) →
      s.OnSpinButton event =
        { s with
          m_spin_value := event.position,
          m_value :=
            (match s.DoTextToValue (s.DoValueToText val) with
            | some d => d
            | none => val),
          m_textCtrl := { value := s.DoValueToText val, modified := false },
          events := s.events ++
            [wxEvent.wxEVT_TEXT (s.DoValueToText val),
              wxEvent.wxEVT_SPINCTRL
                (match s.DoTextToValue (s.DoValueToText val) with
                | some d => d
                | none => val)
                (s.DoValueToText val)] } := by
    intro hne
    rw [hcand]
    exact s.stepperCommit_changed event.position _ val _ _ hval rfl hne rfl
  have hu : ¬ (val ≠ s.m_value ∨ s.DoValueToText val ≠ s.m_textCtrl.value) →
      s.OnSpinButton event = { s with m_spin_value := event.position } := by
    intro hne
    push_neg at hne
    rw [hcand]
    apply s.stepperCommit_unchanged
    · rw [hval]; exact hne.1
    · rw [hval]; exact hne.2
  refine ⟨hc, hu, ?_⟩
  intro hrt
  by_cases hne : val ≠ s.m_value ∨ s.DoValueToText val ≠ s.m_textCtrl.value
  · rw [hc hne, hrt]
  · rw [hu hne]
    push_neg at hne
    exact hne.1.symm

/-- C7, witness (the two scenarios of the specification): with range
`[0, 100]`, increment 1 and value 50 an up step gives 51, text `51`, with the
text event and the change event; with the wrap style, range `[0, 10]` and
value 10 an up step gives 0, text `0`, with both events. -/
theorem C7_OnSpinButton_single_step_witness :
    Example.at50.OnSpinButton { position := 1, lineUp := true } =
        { Example.at50 with
          m_spin_value := 1, m_value := 51,
          m_textCtrl := { value := "51", modified := false },
          events := [wxEvent.wxEVT_TEXT "51", wxEvent.wxEVT_SPINCTRL 51 "51"] }
      ∧ Example.wrap10.OnSpinButton { position := 1, lineUp := true } =
        { Example.wrap10 with
          m_spin_value := 1, m_value := 0,
          m_textCtrl := { value := "0", modified := false },
          events := [wxEvent.wxEVT_TEXT "0", wxEvent.wxEVT_SPINCTRL 0 "0"] } := by
  constructor
  · have hval : Example.at50.AdjustAndSnap
        (Example.at50.AdjustToFitInRange (Example.at50.m_value + Example.at50.m_increment))
        = ((51 : ℤ) : ℚ) := by
      have e : Example.at50.m_value + Example.at50.m_increment = 51 := by
        norm_num [Example.at50, wxSpinCtrlGenericBase.Init]
      rw [e, Example.at50.AdjustToFitInRange_of_mem 51
          (by norm_num [Example.at50, wxSpinCtrlGenericBase.Init])
          (by norm_num [Example.at50, wxSpinCtrlGenericBase.Init]),
        Example.at50.AdjustAndSnap_of_mem 51 (Or.inl rfl)
          (by norm_num [Example.at50, wxSpinCtrlGenericBase.Init])
          (by norm_num [Example.at50, wxSpinCtrlGenericBase.Init])]
      norm_num
    have hstr : Example.at50.DoValueToText ((51 : ℤ) : ℚ) = "51" := by
      rw [wxSpinCtrl.DoValueToText_intCast _ 51 rfl rfl]; decide
    have hp : Example.at50.DoTextToValue "51" = some 51 := by
      rw [wxSpinCtrl.DoTextToValue_base10 _ _ rfl rfl]
      have : wxString.ToLong "51" 10 = some 51 := by decide
      rw [this]; simp
    have h := (C7_OnSpinButton_single_step Example.at50 { position := 1, lineUp := true }
      ((51 : ℤ) : ℚ) rfl rfl rfl hval).1
      (Or.inl (by norm_num [Example.at50, wxSpinCtrlGenericBase.Init]))
    rw [h, hstr, hp]
    rfl
  · have hval : Example.wrap10.AdjustAndSnap
        (Example.wrap10.AdjustToFitInRange
          (Example.wrap10.m_value + Example.wrap10.m_increment))
        = ((0 : ℤ) : ℚ) := by
      have e : Example.wrap10.m_value + Example.wrap10.m_increment = 11 := by
        norm_num [Example.wrap10, wxSpinCtrlGenericBase.Init]
      have a : Example.wrap10.AdjustToFitInRange 11 = 0 := by
        norm_num [wxSpinCtrlGenericBase.AdjustToFitInRange, Example.wrap10,
          wxSpinCtrlGenericBase.Init]
      rw [e, a, Example.wrap10.AdjustAndSnap_of_mem 0 (Or.inl rfl)
          (by norm_num [Example.wrap10, wxSpinCtrlGenericBase.Init])
          (by norm_num [Example.wrap10, wxSpinCtrlGenericBase.Init])]
      norm_num
    have hstr : Example.wrap10.DoValueToText ((0 : ℤ) : ℚ) = "0" := by
      rw [wxSpinCtrl.DoValueToText_intCast _ 0 rfl rfl]; decide
    have hp : Example.wrap10.DoTextToValue "0" = some 0 := by
      rw [wxSpinCtrl.DoTextToValue_base10 _ _ rfl rfl]
      have : wxString.ToLong "0" 10 = some 0 := by decide
      rw [this]; simp
    have h := (C7_OnSpinButton_single_step Example.wrap10 { position := 1, lineUp := true }
      ((0 : ℤ) : ℚ) rfl rfl rfl hval).1
      (Or.inl (by norm_num [Example.wrap10, wxSpinCtrlGenericBase.Init]))
    rw [h, hstr, hp]
    rfl

/-- C7, counterexample to the claim as written: the floating-point control
made with no digits after the point, range `[0, 100]`, increment 1 and initial
value `1/4` (stored `1/4`, shown as `0`).  One up step with no pending edit:
`AdjustAndSnap (AdjustToFitInRange (1/4 + 1))` is `5/4`, but the stored value
becomes 1, the reading of the new text `1`. -/
theorem C7_single_step_counterexample :
    Example.quarter.m_textCtrl.modified = false
      ∧ (1 : ℤ) = Example.quarter.m_spin_value + 1
      ∧ Example.quarter.AdjustAndSnap
          (Example.quarter.AdjustToFitInRange
            (Example.quarter.m_value + Example.quarter.m_increment)) = 5 / 4
      ∧ (Example.quarter.OnSpinButton { position := 1, lineUp := true }).m_value = 1
      ∧ (Example.quarter.OnSpinButton { position := 1, lineUp := true }).m_textCtrl.value
          = "1" := by
  have hval : Example.quarter.AdjustAndSnap
      (Example.quarter.AdjustToFitInRange
        (Example.quarter.m_value + Example.quarter.m_increment)) = 5 / 4 := by
    have e : Example.quarter.m_value + Example.quarter.m_increment = 5 / 4 := by
      norm_num [Example.quarter, wxSpinCtrlGenericBase.Init]
    rw [e, Example.quarter.AdjustToFitInRange_of_mem (5 / 4)
        (by norm_num [Example.quarter, wxSpinCtrlGenericBase.Init])
        (by norm_num [Example.quarter, wxSpinCtrlGenericBase.Init]),
      Example.quarter.AdjustAndSnap_of_mem (5 / 4) (Or.inl rfl)
        (by norm_num [Example.quarter, wxSpinCtrlGenericBase.Init])
        (by norm_num [Example.quarter, wxSpinCtrlGenericBase.Init])]
  have hstr : Example.quarter.DoValueToText (5 / 4) = "1" := by
    rw [wxSpinCtrlDouble.DoValueToText_eq _ _ rfl]
    show wxNumberFormatter.ToString (5 / 4) 0 = "1"
    rw [wxNumberFormatter.ToString_zero_digits (5 / 4) 1 (by norm_num) (by norm_num)]
    decide
  have hp : Example.quarter.DoTextToValue "1" = some 1 := by
    rw [wxSpinCtrlDouble.DoTextToValue_eq _ _ rfl]
    exact wxNumberFormatter.FromString_zero_one.2
  have h : Example.quarter.OnSpinButton { position := 1, lineUp := true } =
      { Example.quarter with
        m_spin_value := 1, m_value := 1,
        m_textCtrl := { value := "1", modified := false },
        events := Example.quarter.events
          ++ [wxEvent.wxEVT_TEXT "1", wxEvent.wxEVT_SPINCTRL 1 "1"] } := by
    rw [Example.quarter.OnSpinButton_single_up { position := 1, lineUp := true } rfl
      (by decide) rfl]
    apply Example.quarter.stepperCommit_changed 1 _ (5 / 4) 1 "1" hval hstr
    · left
      norm_num [Example.quarter, wxSpinCtrlGenericBase.Init]
    · rw [hp]
  refine ⟨rfl, by decide, hval, ?_, ?_⟩
  · rw [h]
  · rw [h]

/-! ## The commit protocol: claims C2, C3, C4, C5 -/

namespace wxSpinCtrlGenericBase

/-- The value stored after a commit whose text reads back as the committed
value is that value. -/
theorem DoSetValue_value_of_round_trip (s : wxSpinCtrlGenericBase) (v : ℚ) (mode : SendEvent)
    (hrt : s.DoTextToValue (s.DoValueToText (s.AdjustAndSnap v)) = some (s.AdjustAndSnap v)) :
    (s.DoSetValue v mode).2.m_value = s.AdjustAndSnap v := by
  by_cases h : s.AdjustAndSnap v ≠ s.m_value
      ∨ s.DoValueToText (s.AdjustAndSnap v) ≠ s.m_textCtrl.value
  · rw [s.DoSetValue_changed v mode h, hrt]
  · have h' := h
    push_neg at h'
    rw [s.DoSetValue_unchanged v mode h'.1 h'.2]
    exact h'.1.symm

end wxSpinCtrlGenericBase

namespace wxSpinCtrlGenericBase

/-- The state left by a commit: unchanged when it reports no change, and
otherwise with the new text, the value read back from it and the logged text
event. -/
theorem DoSetValue_snd (s : wxSpinCtrlGenericBase) (v : ℚ) (mode : SendEvent) :
    ((s.DoSetValue v mode).1 = false → (s.DoSetValue v mode).2 = s
        ∧ s.AdjustAndSnap v = s.m_value
        ∧ s.DoValueToText (s.AdjustAndSnap v) = s.m_textCtrl.value)
      ∧ ((s.DoSetValue v mode).1 = true →
        (s.DoSetValue v mode).2.m_textCtrl
            = { value := s.DoValueToText (s.AdjustAndSnap v), modified := false }
          ∧ (s.DoSetValue v mode).2.m_value =
            (match s.DoTextToValue (s.DoValueToText (s.AdjustAndSnap v)) with
            | some d => d
            | none => s.AdjustAndSnap v)
          ∧ (s.AdjustAndSnap v ≠ s.m_value
            ∨ s.DoValueToText (s.AdjustAndSnap v) ≠ s.m_textCtrl.value)) := by
  by_cases h : s.AdjustAndSnap v ≠ s.m_value
      ∨ s.DoValueToText (s.AdjustAndSnap v) ≠ s.m_textCtrl.value
  · rw [s.DoSetValue_changed v mode h]
    refine ⟨fun hf => Bool.noConfusion hf, fun _ => ⟨rfl, rfl, h⟩⟩
  · have h' := h
    push_neg at h'
    rw [s.DoSetValue_unchanged v mode h'.1 h'.2]
    exact ⟨fun _ => ⟨rfl, h'.1, h'.2⟩, fun hf => Bool.noConfusion hf⟩

/-- A commit changes neither the way values are written nor the way texts are
read. -/
theorem DoSetValue_codec (s : wxSpinCtrlGenericBase) (v : ℚ) (mode : SendEvent) :
    (∀ text : String, (s.DoSetValue v mode).2.DoTextToValue text = s.DoTextToValue text)
      ∧ (∀ w : ℚ, (s.DoSetValue v mode).2.DoValueToText w = s.DoValueToText w)
      ∧ (∀ w : ℚ, (s.DoSetValue v mode).2.AdjustAndSnap w = s.AdjustAndSnap w) := by
  unfold DoSetValue
  simp only []
  split_ifs
  · exact ⟨fun _ => rfl, fun _ => rfl, fun _ => rfl⟩
  · exact ⟨fun _ => rfl, fun _ => rfl, fun _ => rfl⟩

end wxSpinCtrlGenericBase

/-- C3 (as amended): after `DoSetValue v mode` reports a change, the displayed
text is the text of `AdjustAndSnap v`; if `DoTextToValue` reads that text as
`p` the stored value is exactly `p`, and if it cannot read it the stored value
is `AdjustAndSnap v`.  After it reports no change the state is untouched, the
stored value is `AdjustAndSnap v` and the displayed text is the text of the
stored value, so reading the text back yields the stored value exactly when
the text of the stored value reads back as the stored value. -/
theorem C3_DoSetValue_round_trip (s : wxSpinCtrlGenericBase) (v : ℚ) (mode : SendEvent) :
    ((s.DoSetValue v mode).1 = true →
        (s.DoSetValue v mode).2.m_textCtrl.value = s.DoValueToText (s.AdjustAndSnap v)
          ∧ (∀ p : ℚ,
              (s.DoSetValue v mode).2.DoTextToValue (s.DoSetValue v mode).2.m_textCtrl.value
                = some p →
              (s.DoSetValue v mode).2.m_value = p)
          ∧ ((s.DoSetValue v mode).2.DoTextToValue (s.DoSetValue v mode).2.m_textCtrl.value
                = none →
              (s.DoSetValue v mode).2.m_value = s.AdjustAndSnap v))
      ∧ ((s.DoSetValue v mode).1 = false →
          (s.DoSetValue v mode).2 = s
            ∧ s.m_value = s.AdjustAndSnap v
            ∧ s.m_textCtrl.value = s.DoValueToText s.m_value
            ∧ ((s.DoSetValue v mode).2.DoTextToValue (s.DoSetValue v mode).2.m_textCtrl.value
                  = some (s.DoSetValue v mode).2.m_value
                ↔ s.DoTextToValue (s.DoValueToText s.m_value) = some s.m_value)) := by
  have hsnd := s.DoSetValue_snd v mode
  have hcodec := (s.DoSetValue_codec v mode).1
  constructor
  · intro ht
    obtain ⟨htext, hvalue, _⟩ := hsnd.2 ht
    have htv : (s.DoSetValue v mode).2.m_textCtrl.value
        = s.DoValueToText (s.AdjustAndSnap v) := by rw [htext]
    refine ⟨htv, ?_, ?_⟩
    · intro p hp
      rw [hcodec, htv] at hp
      rw [hvalue, hp]
    · intro hp
      rw [hcodec, htv] at hp
      rw [hvalue, hp]
  · intro hf
    obtain ⟨hsame, hval, htext⟩ := hsnd.1 hf
    refine ⟨hsame, hval.symm, ?_, ?_⟩
    · rw [← htext, hval]
    · rw [hsame, ← htext, hval]

/-- C3, witness: committing 51 in the integer control at 50 reports a change,
shows `51` and stores 51, which is what the text reads back as. -/
theorem C3_DoSetValue_round_trip_witness :
    (Example.at50.DoSetValue 51 SendEvent.SendEvent_None).1 = true
      ∧ (Example.at50.DoSetValue 51 SendEvent.SendEvent_None).2.m_textCtrl.value = "51"
      ∧ (Example.at50.DoSetValue 51 SendEvent.SendEvent_None).2.m_value = 51 := by
  have hv : Example.at50.AdjustAndSnap 51 = ((51 : ℤ) : ℚ) := by
    rw [Example.at50.AdjustAndSnap_of_mem 51 (Or.inl rfl)
      (by norm_num [Example.at50, wxSpinCtrlGenericBase.Init])
      (by norm_num [Example.at50, wxSpinCtrlGenericBase.Init])]
    norm_num
  have hstr : Example.at50.DoValueToText ((51 : ℤ) : ℚ) = "51" := by
    rw [wxSpinCtrl.DoValueToText_intCast _ 51 rfl rfl]; decide
  have hp : Example.at50.DoTextToValue "51" = some 51 := by
    rw [wxSpinCtrl.DoTextToValue_base10 _ _ rfl rfl]
    have : wxString.ToLong "51" 10 = some 51 := by decide
    rw [this]; simp
  have ht : (Example.at50.DoSetValue 51 SendEvent.SendEvent_None).1 = true := by
    rw [Example.at50.DoSetValue_fst, hv]
    left
    norm_num [Example.at50, wxSpinCtrlGenericBase.Init]
  have h := (C3_DoSetValue_round_trip Example.at50 51 SendEvent.SendEvent_None).1 ht
  have htext : (Example.at50.DoSetValue 51 SendEvent.SendEvent_None).2.m_textCtrl.value
      = "51" := by
    rw [h.1, hv, hstr]
  refine ⟨ht, htext, h.2.1 51 ?_⟩
  rw [(Example.at50.DoSetValue_codec 51 SendEvent.SendEvent_None).1, htext, hp]

/-- C3, counterexample to the claim as written: the floating-point control
made by `Create` with no digits after the point, range `[0, 100]` and initial
value `1/4` stores `1/4` and shows `0`.  `DoSetValue (1/4)` reports no change
and leaves the state as it is; the displayed text `0` reads back as 0, not as
the stored `1/4`. -/
theorem C3_round_trip_counterexample :
    Example.quarter.DoSetValue (1 / 4) SendEvent.SendEvent_None = (false, Example.quarter)
      ∧ Example.quarter.m_value = 1 / 4
      ∧ Example.quarter.m_textCtrl.value = "0"
      ∧ Example.quarter.DoTextToValue Example.quarter.m_textCtrl.value = some 0
      ∧ Example.quarter.DoTextToValue Example.quarter.m_textCtrl.value
          ≠ some Example.quarter.m_value := by
  have hv : Example.quarter.AdjustAndSnap (1 / 4) = 1 / 4 :=
    Example.quarter.AdjustAndSnap_of_mem (1 / 4) (Or.inl rfl)
      (by norm_num [Example.quarter, wxSpinCtrlGenericBase.Init])
      (by norm_num [Example.quarter, wxSpinCtrlGenericBase.Init])
  have hstr : Example.quarter.DoValueToText (1 / 4) = "0" := by
    rw [wxSpinCtrlDouble.DoValueToText_eq _ _ rfl]
    show wxNumberFormatter.ToString (1 / 4) 0 = "0"
    rw [wxNumberFormatter.ToString_zero_digits (1 / 4) 0 (by norm_num) (by norm_num)]
    decide
  have hp : Example.quarter.DoTextToValue "0" = some 0 := by
    rw [wxSpinCtrlDouble.DoTextToValue_eq _ _ rfl]
    exact wxNumberFormatter.FromString_zero_one.1
  refine ⟨?_, rfl, rfl, hp, ?_⟩
  · exact Example.quarter.DoSetValue_unchanged (1 / 4) _ (by rw [hv]; rfl)
      (by rw [hv, hstr]; rfl)
  · show Example.quarter.DoTextToValue "0" ≠ some (1 / 4)
    rw [hp]
    norm_num

/-- C4 (as amended): if `DoSetValue v mode` returns true, then the value it
computed, `AdjustAndSnap v`, differs from the stored value before the call or
the displayed text after the call differs from the displayed text before it;
the displayed text after the call is the text of `AdjustAndSnap v`; and when
that text reads back as `AdjustAndSnap v`, the stored value after the call
differs from the stored value before it or the displayed text changed. -/
theorem C4_DoSetValue_reports_change (s : wxSpinCtrlGenericBase) (v : ℚ) (mode : SendEvent)
    (h : (s.DoSetValue v mode).1 = true) :
    (s.AdjustAndSnap v ≠ s.m_value
        ∨ (s.DoSetValue v mode).2.m_textCtrl.value ≠ s.m_textCtrl.value)
      ∧ (s.DoSetValue v mode).2.m_textCtrl.value = s.DoValueToText (s.AdjustAndSnap v)
      ∧ (s.DoTextToValue (s.DoValueToText (s.AdjustAndSnap v)) = some (s.AdjustAndSnap v) →
          ((s.DoSetValue v mode).2.m_value ≠ s.m_value
            ∨ (s.DoSetValue v mode).2.m_textCtrl.value ≠ s.m_textCtrl.value)) := by
  obtain ⟨htext, hvalue, hne⟩ := (s.DoSetValue_snd v mode).2 h
  have htv : (s.DoSetValue v mode).2.m_textCtrl.value
      = s.DoValueToText (s.AdjustAndSnap v) := by rw [htext]
  refine ⟨?_, htv, ?_⟩
  · rw [htv]; exact hne
  · intro hrt
    rw [htv, hvalue, hrt]
    exact hne

/-- C4, witness: committing 51 in the integer control at 50 returns true and
the stored value changes from 50 to 51. -/
theorem C4_DoSetValue_reports_change_witness :
    (Example.at50.DoSetValue 51 SendEvent.SendEvent_Text).1 = true
      ∧ (Example.at50.DoSetValue 51 SendEvent.SendEvent_Text).2.m_textCtrl.value
          = Example.at50.DoValueToText (Example.at50.AdjustAndSnap 51)
      ∧ Example.at50.AdjustAndSnap 51 = 51 ∧ Example.at50.m_value = 50 := by
  have hv : Example.at50.AdjustAndSnap 51 = 51 :=
    Example.at50.AdjustAndSnap_of_mem 51 (Or.inl rfl)
      (by norm_num [Example.at50, wxSpinCtrlGenericBase.Init])
      (by norm_num [Example.at50, wxSpinCtrlGenericBase.Init])
  have ht : (Example.at50.DoSetValue 51 SendEvent.SendEvent_Text).1 = true := by
    rw [Example.at50.DoSetValue_fst, hv]
    left
    norm_num [Example.at50, wxSpinCtrlGenericBase.Init]
  exact ⟨ht,
    (C4_DoSetValue_reports_change Example.at50 51 SendEvent.SendEvent_Text ht).2.1, hv, rfl⟩

/-- C4, counterexample to the claim as written: the floating-point control
with no digits after the point, range `[0, 100]`, stored value 0 shown as `0`.
`DoSetValue (1/4)` returns true, because `1/4` differs from the stored 0, yet
the text of `1/4` is again `0` and reads back as 0: the state after the call is
the state before it, stored value and displayed text included. -/
theorem C4_reports_change_counterexample :
    (Example.zeroDouble.DoSetValue (1 / 4) SendEvent.SendEvent_None).1 = true
      ∧ (Example.zeroDouble.DoSetValue (1 / 4) SendEvent.SendEvent_None).2.m_value
          = Example.zeroDouble.m_value
      ∧ (Example.zeroDouble.DoSetValue (1 / 4) SendEvent.SendEvent_None).2.m_textCtrl.value
          = Example.zeroDouble.m_textCtrl.value
      ∧ (Example.zeroDouble.DoSetValue (1 / 4) SendEvent.SendEvent_None).2
          = Example.zeroDouble := by
  have hv : Example.zeroDouble.AdjustAndSnap (1 / 4) = 1 / 4 :=
    Example.zeroDouble.AdjustAndSnap_of_mem (1 / 4) (Or.inl rfl)
      (by norm_num [Example.zeroDouble, wxSpinCtrlGenericBase.Init])
      (by norm_num [Example.zeroDouble, wxSpinCtrlGenericBase.Init])
  have hstr : wxNumberFormatter.ToString (1 / 4) Example.zeroDouble.m_digits = "0" := by
    show wxNumberFormatter.ToString (1 / 4) 0 = "0"
    rw [wxNumberFormatter.ToString_zero_digits (1 / 4) 0 (by norm_num) (by norm_num)]
    decide
  have h := wxSpinCtrlDouble.DoSetValue_eval_double Example.zeroDouble (1 / 4)
    SendEvent.SendEvent_None (1 / 4) 0 "0" rfl hv hstr
    (Or.inl (by norm_num [Example.zeroDouble, wxSpinCtrlGenericBase.Init]))
    wxNumberFormatter.FromString_zero_one.1
  rw [h]
  exact ⟨rfl, rfl, rfl, rfl⟩

/-- C5 (as amended): let `s1` be the state reached by the commit
`DoSetValue v mode`.  If that commit reported no change, or the text of the
committed value `AdjustAndSnap v` reads back as that value, then committing the
stored value of `s1` again returns false and leaves `s1` exactly as it is
(value, text and event log). -/
theorem C5_DoSetValue_current_is_noop (s : wxSpinCtrlGenericBase) (v : ℚ)
    (mode mode2 : SendEvent)
    (h : (s.DoSetValue v mode).1 = false
      ∨ s.DoTextToValue (s.DoValueToText (s.AdjustAndSnap v)) = some (s.AdjustAndSnap v)) :
    (s.DoSetValue v mode).2.DoSetValue (s.DoSetValue v mode).2.m_value mode2
      = (false, (s.DoSetValue v mode).2) := by
  obtain ⟨_, hfmt, hsnap⟩ := s.DoSetValue_codec v mode
  have hsnd := s.DoSetValue_snd v mode
  have hvalue : (s.DoSetValue v mode).2.m_value = s.AdjustAndSnap v := by
    rcases h with h | h
    · obtain ⟨hsame, hval, _⟩ := hsnd.1 h
      rw [hsame, hval]
    · exact s.DoSetValue_value_of_round_trip v mode h
  have htext : (s.DoSetValue v mode).2.m_textCtrl.value
      = s.DoValueToText (s.AdjustAndSnap v) := by
    cases hb : (s.DoSetValue v mode).1
    · obtain ⟨hsame, _, ht⟩ := hsnd.1 hb
      rw [hsame, ht]
    · rw [(hsnd.2 hb).1]
  apply wxSpinCtrlGenericBase.DoSetValue_unchanged
  · rw [hsnap, hvalue, s.AdjustAndSnap_idem]
  · rw [hsnap, hfmt, hvalue, s.AdjustAndSnap_idem, htext]

/-- C5, witness: after committing 51 in the integer control at 50, committing
the stored value again returns false and changes nothing. -/
theorem C5_DoSetValue_current_is_noop_witness :
    (Example.at50.DoSetValue 51 SendEvent.SendEvent_Text).2.DoSetValue
        (Example.at50.DoSetValue 51 SendEvent.SendEvent_Text).2.m_value
        SendEvent.SendEvent_Text
      = (false, (Example.at50.DoSetValue 51 SendEvent.SendEvent_Text).2) := by
  apply C5_DoSetValue_current_is_noop
  right
  have hv : Example.at50.AdjustAndSnap 51 = ((51 : ℤ) : ℚ) := by
    rw [Example.at50.AdjustAndSnap_of_mem 51 (Or.inl rfl)
      (by norm_num [Example.at50, wxSpinCtrlGenericBase.Init])
      (by norm_num [Example.at50, wxSpinCtrlGenericBase.Init])]
    norm_num
  rw [hv, wxSpinCtrl.DoValueToText_intCast _ 51 rfl rfl,
    wxSpinCtrl.DoTextToValue_base10 _ _ rfl rfl]
  have e1 : wxString.FormatLong 51 = "51" := by decide
  have e2 : wxString.ToLong "51" 10 = some 51 := by decide
  rw [e1, e2]
  rfl

/-- C5, counterexample to the claim as written: the floating-point control
with no digits after the point, range `[1/4, 100]`, value 50.  The commit
`DoSetValue 0` clamps 0 to `1/4`, shows `0` and stores 0, the reading of that
text.  Committing the stored value 0 again returns true, not false. -/
theorem C5_current_is_noop_counterexample :
    (Example.minQuarter.DoSetValue 0 SendEvent.SendEvent_None).1 = true
      ∧ (Example.minQuarter.DoSetValue 0 SendEvent.SendEvent_None).2.m_value = 0
      ∧ (Example.minQuarter.DoSetValue 0 SendEvent.SendEvent_None).2.m_textCtrl.value = "0"
      ∧ ((Example.minQuarter.DoSetValue 0 SendEvent.SendEvent_None).2.DoSetValue
          (Example.minQuarter.DoSetValue 0 SendEvent.SendEvent_None).2.m_value
          SendEvent.SendEvent_None).1 = true := by
  have hmin : Example.minQuarter.m_min = 1 / 4 := rfl
  have hmax : Example.minQuarter.m_max = 100 := rfl
  have hv : Example.minQuarter.AdjustAndSnap 0 = 1 / 4 := by
    rw [Example.minQuarter.AdjustAndSnap_no_snap 0 (Or.inl rfl)]
    unfold wxSpinCtrlGenericBase.rangeTests
    simp only [hmin, hmax]
    norm_num
  have hstr : wxNumberFormatter.ToString (1 / 4) Example.minQuarter.m_digits = "0" := by
    show wxNumberFormatter.ToString (1 / 4) 0 = "0"
    rw [wxNumberFormatter.ToString_zero_digits (1 / 4) 0 (by norm_num) (by norm_num)]
    decide
  have h := wxSpinCtrlDouble.DoSetValue_eval_double Example.minQuarter 0
    SendEvent.SendEvent_None (1 / 4) 0 "0" rfl hv hstr
    (Or.inl (by norm_num [Example.minQuarter, wxSpinCtrlGenericBase.Init]))
    wxNumberFormatter.FromString_zero_one.1
  rw [h]
  refine ⟨rfl, rfl, rfl, ?_⟩
  rw [wxSpinCtrlGenericBase.DoSetValue_fst]
  left
  show wxSpinCtrlGenericBase.AdjustAndSnap Example.minQuarter 0 ≠ 0
  rw [hv]
  norm_num

/-! ## Text synchronisation: claim C10 -/

namespace wxSpinCtrlGenericBase

/-- On an edited field whose text reads as `t`, `SyncSpinToText` commits `t`
clamped to the range. -/
theorem SyncSpinToText_parsed (s : wxSpinCtrlGenericBase) (mode : SendEvent) (t : ℚ)
    (hmod : s.m_textCtrl.modified = true)
    (hp : s.DoTextToValue s.m_textCtrl.value = some t) :
    s.SyncSpinToText mode =
      s.DoSetValue (if t > s.m_max then s.m_max else if t < s.m_min then s.m_min else t)
        mode := by
  unfold SyncSpinToText
  rw [if_neg (by rw [hmod]; exact Bool.noConfusion), hp]

/-- On an edited field whose text is not a number, `SyncSpinToText` commits the
stored value. -/
theorem SyncSpinToText_unparsed (s : wxSpinCtrlGenericBase) (mode : SendEvent)
    (hmod : s.m_textCtrl.modified = true)
    (hp : s.DoTextToValue s.m_textCtrl.value = none) :
    s.SyncSpinToText mode = s.DoSetValue s.m_value mode := by
  unfold SyncSpinToText
  rw [if_neg (by rw [hmod]; exact Bool.noConfusion), hp]

end wxSpinCtrlGenericBase

/-- C10 (as amended): `SyncSpinToText` returns false and changes nothing when
the field was not edited; on an edited field whose text reads as `t` it commits
(via `DoSetValue`) `t` clamped to `[min, max]`, `max` if `t > max` and `min` if
`t < min`, whatever the wrap style; on an edited field whose text is not a
number it commits the stored value.  In that last case, if the stored value is
a fixed point of `AdjustAndSnap` and its text reads back as itself, the call
returns true, the stored value stays as it was and the displayed text becomes
the text of that value, marked unedited. -/
theorem C10_SyncSpinToText (s : wxSpinCtrlGenericBase) (mode : SendEvent) :
    (s.m_textCtrl.modified = false → s.SyncSpinToText mode = (false, s))
      ∧ (s.m_textCtrl.modified = true →
          ∀ t : ℚ, s.DoTextToValue s.m_textCtrl.value = some t →
            s.SyncSpinToText mode =
              s.DoSetValue
                (if t > s.m_max then s.m_max else if t < s.m_min then s.m_min else t) mode)
      ∧ (s.m_textCtrl.modified = true → s.DoTextToValue s.m_textCtrl.value = none →
          s.SyncSpinToText mode = s.DoSetValue s.m_value mode)
      ∧ (s.m_textCtrl.modified = true → s.DoTextToValue s.m_textCtrl.value = none →
          s.AdjustAndSnap s.m_value = s.m_value →
          s.DoTextToValue (s.DoValueToText s.m_value) = some s.m_value →
          (s.SyncSpinToText mode).1 = true
            ∧ (s.SyncSpinToText mode).2.m_value = s.m_value
            ∧ (s.SyncSpinToText mode).2.m_textCtrl
              = { value := s.DoValueToText s.m_value, modified := false }) := by
  refine ⟨s.SyncSpinToText_not_modified mode, ?_, ?_, ?_⟩
  · intro hmod t hp
    exact s.SyncSpinToText_parsed mode t hmod hp
  · intro hmod hp
    exact s.SyncSpinToText_unparsed mode hmod hp
  · intro hmod hp hfix hrt
    rw [s.SyncSpinToText_unparsed mode hmod hp]
    have hne : s.AdjustAndSnap s.m_value ≠ s.m_value
        ∨ s.DoValueToText (s.AdjustAndSnap s.m_value) ≠ s.m_textCtrl.value := by
      right
      rw [hfix]
      intro he
      rw [he, hp] at hrt
      exact Option.noConfusion hrt
    rw [s.DoSetValue_changed s.m_value mode hne, hfix, hrt]
    exact ⟨rfl, rfl, rfl⟩

/-- C10, witness (the scenario of the specification): the integer control at 5
in which the user typed `abc`; on focus loss the value stays 5, the field shows
`5` again, and the text event and the change event are logged. -/
theorem C10_SyncSpinToText_witness :
    (Example.at5.UserTypes "abc").OnTextLostFocus =
      { Example.at5 with
        events := [wxEvent.wxEVT_TEXT "5", wxEvent.wxEVT_SPINCTRL 5 "5"] } := by
  have hp : (Example.at5.UserTypes "abc").DoTextToValue
      (Example.at5.UserTypes "abc").m_textCtrl.value = none := by
    rw [wxSpinCtrl.DoTextToValue_base10 _ _ rfl rfl]
    have : wxString.ToLong (Example.at5.UserTypes "abc").m_textCtrl.value 10 = none := by
      decide
    rw [this]; rfl
  have hv : (Example.at5.UserTypes "abc").AdjustAndSnap (Example.at5.UserTypes "abc").m_value
      = ((5 : ℤ) : ℚ) := by
    rw [(Example.at5.UserTypes "abc").AdjustAndSnap_of_mem _ (Or.inl rfl)
      (by norm_num [Example.at5, wxSpinCtrlGenericBase.UserTypes, wxSpinCtrlGenericBase.Init])
      (by norm_num [Example.at5, wxSpinCtrlGenericBase.UserTypes, wxSpinCtrlGenericBase.Init])]
    norm_num [Example.at5, wxSpinCtrlGenericBase.UserTypes]
  have h := (C10_SyncSpinToText (Example.at5.UserTypes "abc") SendEvent.SendEvent_Text).2.2.1
    rfl hp
  have hc := wxSpinCtrl.DoSetValue_eval_long (Example.at5.UserTypes "abc")
    (Example.at5.UserTypes "abc").m_value SendEvent.SendEvent_Text 5 5 "5" rfl rfl hv
    (by decide) (Or.inr (by decide)) (by decide)
  unfold wxSpinCtrlGenericBase.OnTextLostFocus
  simp only []
  rw [h, hc]
  simp only [if_true, wxSpinCtrlGenericBase.DoSendEvent]
  norm_num [Example.at5, wxSpinCtrlGenericBase.UserTypes, wxSpinCtrlGenericBase.Init]

/-- C10, counterexample to the claim as written: the floating-point control
made by `Create` with no digits after the point, range `[0, 100]` and initial
value `1/4` (stored `1/4`, shown as `0`), in which the user typed `abc`.  The
text is not a number, so `SyncSpinToText` commits the stored value `1/4`: the
field shows `0` and the stored value becomes 0, not the last good value
`1/4`. -/
theorem C10_sync_counterexample :
    (Example.quarter.UserTypes "abc").m_textCtrl.modified = true
      ∧ (Example.quarter.UserTypes "abc").DoTextToValue
          (Example.quarter.UserTypes "abc").m_textCtrl.value = none
      ∧ (Example.quarter.UserTypes "abc").m_value = 1 / 4
      ∧ ((Example.quarter.UserTypes "abc").SyncSpinToText SendEvent.SendEvent_Text).2.m_value
          = 0
      ∧ ((Example.quarter.UserTypes "abc").SyncSpinToText
          SendEvent.SendEvent_Text).2.m_textCtrl.value = "0" := by
  have hp : (Example.quarter.UserTypes "abc").DoTextToValue
      (Example.quarter.UserTypes "abc").m_textCtrl.value = none := by
    rw [wxSpinCtrlDouble.DoTextToValue_eq _ _ rfl]
    decide
  have hv : (Example.quarter.UserTypes "abc").AdjustAndSnap
      (Example.quarter.UserTypes "abc").m_value = 1 / 4 := by
    rw [(Example.quarter.UserTypes "abc").AdjustAndSnap_of_mem _ (Or.inl rfl)
      (by norm_num [Example.quarter, wxSpinCtrlGenericBase.UserTypes,
        wxSpinCtrlGenericBase.Init])
      (by norm_num [Example.quarter, wxSpinCtrlGenericBase.UserTypes,
        wxSpinCtrlGenericBase.Init])]
    rfl
  have hstr : wxNumberFormatter.ToString (1 / 4)
      (Example.quarter.UserTypes "abc").m_digits = "0" := by
    show wxNumberFormatter.ToString (1 / 4) 0 = "0"
    rw [wxNumberFormatter.ToString_zero_digits (1 / 4) 0 (by norm_num) (by norm_num)]
    decide
  have hc := wxSpinCtrlDouble.DoSetValue_eval_double (Example.quarter.UserTypes "abc")
    (Example.quarter.UserTypes "abc").m_value SendEvent.SendEvent_Text (1 / 4) 0 "0" rfl hv
    hstr (Or.inr (by decide)) wxNumberFormatter.FromString_zero_one.1
  rw [(Example.quarter.UserTypes "abc").SyncSpinToText_unparsed _ rfl hp, hc]
  exact ⟨rfl, hp, rfl, rfl, rfl⟩

/-! ## Code that departs from the specification: claims C1, C6 -/

/-- `DoSetRange` when the stored value is below the new minimum: the value is
committed in the control whose minimum is already the new one and whose
maximum is still the old one; the new maximum is stored afterwards. -/
theorem wxSpinCtrlGenericBase.DoSetRange_below (s s2 : wxSpinCtrlGenericBase) (lo hi : ℚ)
    (hc : wxSpinCtrlImpl.IsBaseCompatibleWithRange lo hi s.GetBase = true)
    (hlt : s.m_value < lo)
    (h2 : (wxSpinCtrlGenericBase.DoSetValue { s with m_min := lo } lo
      SendEvent.SendEvent_None).2 = s2)
    (hle : ¬ (s2.m_value > hi)) :
    s.DoSetRange lo hi = { s2 with m_max := hi } := by
  unfold wxSpinCtrlGenericBase.DoSetRange
  rw [if_neg (by rw [hc]; exact Bool.noConfusion)]
  show (if (if s.m_value < lo then
        (wxSpinCtrlGenericBase.DoSetValue { s with m_min := lo } lo
          SendEvent.SendEvent_None).2
      else { s with m_min := lo }).m_value > hi then _ else _) = _
  rw [if_pos hlt, h2, if_neg hle]

/-- C1, failing input: the integer control with range `[0, 10]` and value 5
(snap-to-ticks off, `min ≤ current ≤ max`) and the new range `[20, 30]`, which
is compatible with base 10.  `DoSetRange 20 30` stores the range `[20, 30]`, but
the value is committed while `m_max` is still 10, so it is clamped to 10: the
stored value ends at 10, below the new minimum, and the field shows `10`. -/
theorem C1_DoSetRange_failing_input :
    Example.range10.m_min ≤ Example.range10.m_value
      ∧ Example.range10.m_value ≤ Example.range10.m_max
      ∧ Example.range10.m_snap_to_ticks = false
      ∧ wxSpinCtrlImpl.IsBaseCompatibleWithRange 20 30 Example.range10.GetBase = true
      ∧ (Example.range10.DoSetRange 20 30).m_min = 20
      ∧ (Example.range10.DoSetRange 20 30).m_max = 30
      ∧ (Example.range10.DoSetRange 20 30).m_value = 10
      ∧ (Example.range10.DoSetRange 20 30).m_textCtrl.value = "10"
      ∧ ¬ ((Example.range10.DoSetRange 20 30).m_min
            ≤ (Example.range10.DoSetRange 20 30).m_value) := by
  have hcompat : wxSpinCtrlImpl.IsBaseCompatibleWithRange 20 30 Example.range10.GetBase
      = true := by
    unfold wxSpinCtrlImpl.IsBaseCompatibleWithRange
    simp only [decide_eq_true_eq]
    left
    rfl
  have hv : wxSpinCtrlGenericBase.AdjustAndSnap { Example.range10 with m_min := 20 } 20
      = ((10 : ℤ) : ℚ) := by
    rw [wxSpinCtrlGenericBase.AdjustAndSnap_no_snap _ 20 (Or.inl rfl)]
    norm_num [wxSpinCtrlGenericBase.rangeTests, Example.range10, wxSpinCtrlGenericBase.Init]
  have hc := wxSpinCtrl.DoSetValue_eval_long { Example.range10 with m_min := 20 } 20
    SendEvent.SendEvent_None 10 10 "10" rfl rfl hv (by decide)
    (Or.inr (by decide)) (by decide)
  have h : Example.range10.DoSetRange 20 30 =
      { Example.range10 with
        m_min := 20, m_max := 30, m_value := 10,
        m_textCtrl := { value := "10", modified := false } } := by
    rw [Example.range10.DoSetRange_below
      { Example.range10 with
        m_min := 20, m_value := 10, m_textCtrl := { value := "10", modified := false } }
      20 30 hcompat (by norm_num [Example.range10, wxSpinCtrlGenericBase.Init])
      (by rw [hc]; norm_num [Example.range10, wxSpinCtrlGenericBase.Init])
      (by norm_num)]
  rw [h]
  refine ⟨by norm_num [Example.range10, wxSpinCtrlGenericBase.Init],
    by norm_num [Example.range10, wxSpinCtrlGenericBase.Init], rfl, hcompat, rfl, rfl,
    by norm_num, rfl, by norm_num⟩

namespace wxSpinCtrlGenericBase

/-- `OnTextChar` for the up arrow with arrow keys enabled: the candidate is
computed from the stored value before the pending edit is flushed, and is
committed after the flush. -/
theorem OnTextChar_up (s : wxSpinCtrlGenericBase) (h : s.wxSP_ARROW_KEYS = true) :
    s.OnTextChar KeyCode.WXK_UP =
      if (s.synced.DoSetValue (s.AdjustToFitInRange (s.m_value + s.m_increment))
          SendEvent.SendEvent_None).1 then
        (s.synced.DoSetValue (s.AdjustToFitInRange (s.m_value + s.m_increment))
          SendEvent.SendEvent_None).2.DoSendEvent
      else
        (s.synced.DoSetValue (s.AdjustToFitInRange (s.m_value + s.m_increment))
          SendEvent.SendEvent_None).2 := by
  unfold OnTextChar
  rw [if_neg (by rw [h]; exact Bool.noConfusion)]
  rfl

/-- `OnMouseWheel` for a vertical rotation upwards: the candidate is computed
from the stored value before the pending edit is flushed, and is committed
after the flush. -/
theorem OnMouseWheel_up (s : wxSpinCtrlGenericBase) (event : wxMouseEvent)
    (hv : event.vertical = true) (hr : event.wheelRotation > 0) :
    s.OnMouseWheel event =
      if (s.synced.DoSetValue (s.AdjustToFitInRange (s.m_value + s.m_increment))
          SendEvent.SendEvent_None).1 then
        (s.synced.DoSetValue (s.AdjustToFitInRange (s.m_value + s.m_increment))
          SendEvent.SendEvent_None).2.DoSendEvent
      else
        (s.synced.DoSetValue (s.AdjustToFitInRange (s.m_value + s.m_increment))
          SendEvent.SendEvent_None).2 := by
  unfold OnMouseWheel
  rw [if_neg]
  · simp only [if_pos hr]
    rfl
  · rintro (h | h)
    · rw [hv] at h; exact Bool.noConfusion h
    · omega

end wxSpinCtrlGenericBase

/-- C6, failing input: the integer control with range `[0, 100]`, increment 1
and stored value 5, arrow keys enabled, in which the user typed `7` (an
unsynced edit that reads as the in-range value 7).  The claim gives
`AdjustAndSnap (AdjustToFitInRange (7 + 1)) = 8` for the up arrow and for one
wheel notch upwards; `OnTextChar` and `OnMouseWheel` compute the candidate from
the stored 5 before flushing the edit and commit 6, showing `6`.  The spin
button handler, which flushes first, commits 8. -/
theorem C6_OnTextChar_failing_input :
    (Example.at5.UserTypes "7").m_textCtrl.modified = true
      ∧ (Example.at5.UserTypes "7").DoTextToValue (Example.at5.UserTypes "7").m_textCtrl.value
          = some 7
      ∧ (Example.at5.UserTypes "7").AdjustAndSnap
          ((Example.at5.UserTypes "7").AdjustToFitInRange
            (7 + 1 * (Example.at5.UserTypes "7").m_increment)) = 8
      ∧ ((Example.at5.UserTypes "7").OnTextChar KeyCode.WXK_UP).m_value = 6
      ∧ ((Example.at5.UserTypes "7").OnTextChar KeyCode.WXK_UP).m_textCtrl.value = "6"
      ∧ ((Example.at5.UserTypes "7").OnTextChar KeyCode.WXK_UP).events
          = [wxEvent.wxEVT_SPINCTRL 6 "6"]
      ∧ ((Example.at5.UserTypes "7").OnMouseWheel
          { vertical := true, wheelRotation := 120 }).m_value = 6
      ∧ ((Example.at5.UserTypes "7").OnSpinButton
          { position := 1, lineUp := true }).m_value = 8 := by
  have hp : (Example.at5.UserTypes "7").DoTextToValue
      (Example.at5.UserTypes "7").m_textCtrl.value = some 7 := by
    rw [wxSpinCtrl.DoTextToValue_base10 _ _ rfl rfl]
    have : wxString.ToLong (Example.at5.UserTypes "7").m_textCtrl.value 10 = some 7 := by
      decide
    rw [this]; simp
  have hmin : (Example.at5.UserTypes "7").m_min = 0 := rfl
  have hmax : (Example.at5.UserTypes "7").m_max = 100 := rfl
  have hval : (Example.at5.UserTypes "7").m_value = 5 := rfl
  have hinc : (Example.at5.UserTypes "7").m_increment = 1 := rfl
  -- the flush commits the typed 7
  have h7 : (Example.at5.UserTypes "7").AdjustAndSnap 7 = ((7 : ℤ) : ℚ) := by
    rw [(Example.at5.UserTypes "7").AdjustAndSnap_of_mem 7 (Or.inl rfl)
      (by rw [hmin]; norm_num) (by rw [hmax]; norm_num)]
    norm_num
  have hsync : (Example.at5.UserTypes "7").synced =
      { Example.at5 with m_value := 7, m_textCtrl := { value := "7", modified := false } } := by
    unfold wxSpinCtrlGenericBase.synced
    rw [(Example.at5.UserTypes "7").SyncSpinToText_parsed _ 7 rfl hp]
    have e : (if (7 : ℚ) > (Example.at5.UserTypes "7").m_max then
          (Example.at5.UserTypes "7").m_max
        else if (7 : ℚ) < (Example.at5.UserTypes "7").m_min then
          (Example.at5.UserTypes "7").m_min
        else 7) = 7 := by
      rw [hmin, hmax]; norm_num
    rw [e, wxSpinCtrl.DoSetValue_eval_long (Example.at5.UserTypes "7") 7
      SendEvent.SendEvent_None 7 7 "7" rfl rfl h7 (by decide)
      (Or.inl (by rw [hval]; norm_num)) (by decide)]
    norm_num [Example.at5, wxSpinCtrlGenericBase.UserTypes, wxSpinCtrlGenericBase.Init]
  -- the stale candidate 5 + 1
  have hcand : (Example.at5.UserTypes "7").AdjustToFitInRange
      ((Example.at5.UserTypes "7").m_value + (Example.at5.UserTypes "7").m_increment) = 6 := by
    rw [hval, hinc, (Example.at5.UserTypes "7").AdjustToFitInRange_of_mem _
      (by rw [hmin]; norm_num) (by rw [hmax]; norm_num)]
    norm_num
  have h6 : wxSpinCtrlGenericBase.AdjustAndSnap
      { Example.at5 with m_value := 7, m_textCtrl := { value := "7", modified := false } } 6
      = ((6 : ℤ) : ℚ) := by
    rw [wxSpinCtrlGenericBase.AdjustAndSnap_of_mem _ 6 (Or.inl rfl)
      (by norm_num [Example.at5, wxSpinCtrlGenericBase.Init])
      (by norm_num [Example.at5, wxSpinCtrlGenericBase.Init])]
    norm_num
  have hcommit := wxSpinCtrl.DoSetValue_eval_long
    { Example.at5 with m_value := 7, m_textCtrl := { value := "7", modified := false } } 6
    SendEvent.SendEvent_None 6 6 "6" rfl rfl h6 (by decide)
    (Or.inr (by decide)) (by decide)
  have hkey : (Example.at5.UserTypes "7").OnTextChar KeyCode.WXK_UP =
      { Example.at5 with
        m_value := 6, m_textCtrl := { value := "6", modified := false },
        events := [wxEvent.wxEVT_SPINCTRL 6 "6"] } := by
    rw [(Example.at5.UserTypes "7").OnTextChar_up rfl, hcand, hsync, hcommit]
    norm_num [wxSpinCtrlGenericBase.DoSendEvent, Example.at5, wxSpinCtrlGenericBase.Init]
  have hwheel : (Example.at5.UserTypes "7").OnMouseWheel
      { vertical := true, wheelRotation := 120 } =
      { Example.at5 with
        m_value := 6, m_textCtrl := { value := "6", modified := false },
        events := [wxEvent.wxEVT_SPINCTRL 6 "6"] } := by
    rw [(Example.at5.UserTypes "7").OnMouseWheel_up _ rfl (by decide), hcand, hsync, hcommit]
    norm_num [wxSpinCtrlGenericBase.DoSendEvent, Example.at5, wxSpinCtrlGenericBase.Init]
  -- the spin button flushes first
  have h8 : wxSpinCtrlGenericBase.AdjustAndSnap
      { Example.at5 with m_value := 7, m_textCtrl := { value := "7", modified := false } }
      (wxSpinCtrlGenericBase.AdjustToFitInRange
        { Example.at5 with m_value := 7, m_textCtrl := { value := "7", modified := false } }
        (7 + 1 * 1 * 1))
      = ((8 : ℤ) : ℚ) := by
    rw [wxSpinCtrlGenericBase.AdjustToFitInRange_of_mem _ _
        (by norm_num [Example.at5, wxSpinCtrlGenericBase.Init])
        (by norm_num [Example.at5, wxSpinCtrlGenericBase.Init]),
      wxSpinCtrlGenericBase.AdjustAndSnap_of_mem _ _ (Or.inl rfl)
        (by norm_num [Example.at5, wxSpinCtrlGenericBase.Init])
        (by norm_num [Example.at5, wxSpinCtrlGenericBase.Init])]
    norm_num
  have hspin : ((Example.at5.UserTypes "7").OnSpinButton
      { position := 1, lineUp := true }).m_value = 8 := by
    rw [(Example.at5.UserTypes "7").OnSpinButton_eq, hsync]
    rw [if_neg (by decide), if_pos (by decide)]
    have hstr : wxSpinCtrlGenericBase.DoValueToText
        { Example.at5 with m_value := 7, m_textCtrl := { value := "7", modified := false } }
        ((8 : ℤ) : ℚ) = "8" := by
      rw [wxSpinCtrl.DoValueToText_intCast _ 8 rfl rfl]; decide
    have hp8 : wxSpinCtrlGenericBase.DoTextToValue
        { Example.at5 with m_value := 7, m_textCtrl := { value := "7", modified := false } }
        "8" = some 8 := by
      rw [wxSpinCtrl.DoTextToValue_base10 _ _ rfl rfl]
      have : wxString.ToLong "8" 10 = some 8 := by decide
      rw [this]; simp
    rw [wxSpinCtrlGenericBase.stepperCommit_changed _ 1 _ ((8 : ℤ) : ℚ) 8 "8" _ hstr
      (Or.inr (by decide)) (by rw [hp8])]
    convert h8 using 2
  refine ⟨rfl, hp, ?_, ?_, ?_, ?_, ?_, hspin⟩
  · rw [hinc, (Example.at5.UserTypes "7").AdjustToFitInRange_of_mem _
        (by rw [hmin]; norm_num) (by rw [hmax]; norm_num),
      (Example.at5.UserTypes "7").AdjustAndSnap_of_mem _ (Or.inl rfl)
        (by rw [hmin]; norm_num) (by rw [hmax]; norm_num)]
    norm_num
  · rw [hkey]
  · rw [hkey]
  · rw [hkey]
  · rw [hwheel]

/-! ## The example controls are made by the constructor -/

/-- `Create` with an empty text argument and an initial value inside the range:
the value is stored as given and the field shows its text. -/
theorem wxSpinCtrlGenericBase.Create_of_mem (kind : Kind) (digits : ℕ) (wrap arrowKeys : Bool)
    (min max initial increment : ℚ) (hlo : min ≤ initial) (hhi : initial ≤ max) :
    wxSpinCtrlGenericBase.Create (wxSpinCtrlGenericBase.Init kind digits wrap arrowKeys) ""
        min max initial increment =
      { wxSpinCtrlGenericBase.Init kind digits wrap arrowKeys with
        m_min := min, m_max := max, m_increment := increment, m_value := initial,
        m_textCtrl :=
          { value := wxSpinCtrlGenericBase.DoValueToText
              { wxSpinCtrlGenericBase.Init kind digits wrap arrowKeys with
                m_min := min, m_max := max, m_increment := increment, m_value := initial }
              initial,
            modified := false } } := by
  have hv : wxSpinCtrlGenericBase.AdjustAndSnap
      { wxSpinCtrlGenericBase.Init kind digits wrap arrowKeys with
        m_min := min, m_max := max, m_increment := increment } initial = initial :=
    wxSpinCtrlGenericBase.AdjustAndSnap_of_mem _ initial (Or.inl rfl) hlo hhi
  unfold wxSpinCtrlGenericBase.Create
  simp only [ne_eq, not_true_eq_false, if_false, hv]
  rfl

/-- The example controls `at50`, `at5`, `range10`, `wrap10`, `negativeRange`,
`quarter`, `zeroDouble` and `minQuarter` are what `Create` makes from the
arguments named in their descriptions. -/
theorem Example.made_by_Create :
    wxSpinCtrlGenericBase.Create (wxSpinCtrlGenericBase.Init Kind.wxSpinCtrl 0 false true) ""
        0 100 50 1 = Example.at50
      ∧ wxSpinCtrlGenericBase.Create (wxSpinCtrlGenericBase.Init Kind.wxSpinCtrl 0 false true) ""
        0 100 5 1 = Example.at5
      ∧ wxSpinCtrlGenericBase.Create (wxSpinCtrlGenericBase.Init Kind.wxSpinCtrl 0 false true) ""
        0 10 5 1 = Example.range10
      ∧ wxSpinCtrlGenericBase.Create (wxSpinCtrlGenericBase.Init Kind.wxSpinCtrl 0 true true) ""
        0 10 10 1 = Example.wrap10
      ∧ wxSpinCtrlGenericBase.Create (wxSpinCtrlGenericBase.Init Kind.wxSpinCtrl 0 false true) ""
        (-5) 10 0 1 = Example.negativeRange
      ∧ wxSpinCtrlGenericBase.Create
        (wxSpinCtrlGenericBase.Init Kind.wxSpinCtrlDouble 0 false true) ""
        0 100 (1 / 4) 1 = Example.quarter
      ∧ wxSpinCtrlGenericBase.Create
        (wxSpinCtrlGenericBase.Init Kind.wxSpinCtrlDouble 0 false true) ""
        0 100 0 1 = Example.zeroDouble
      ∧ wxSpinCtrlGenericBase.Create
        (wxSpinCtrlGenericBase.Init Kind.wxSpinCtrlDouble 0 false true) ""
        (1 / 4) 100 50 1 = Example.minQuarter := by
  have hint : ∀ (s : wxSpinCtrlGenericBase) (n : ℤ) (q : ℚ), s.kind = Kind.wxSpinCtrl →
      s.m_base = 10 → q = (n : ℚ) → s.DoValueToText q = wxString.FormatLong n := by
    intro s n q hk hb hq
    rw [hq]
    exact wxSpinCtrl.DoValueToText_intCast s n hk hb
  have hdbl : ∀ (s : wxSpinCtrlGenericBase) (n : ℕ) (q : ℚ), s.kind = Kind.wxSpinCtrlDouble →
      s.m_digits = 0 → (n : ℚ) ≤ q → q < n + 1 / 2 → s.DoValueToText q = Nat.repr n := by
    intro s n q hk hd h1 h2
    rw [wxSpinCtrlDouble.DoValueToText_eq s q hk, hd]
    exact wxNumberFormatter.ToString_zero_digits q n h1 h2
  refine ⟨?_, ?_, ?_, ?_, ?_, ?_, ?_, ?_⟩
  · rw [wxSpinCtrlGenericBase.Create_of_mem _ _ _ _ _ _ _ _ (by norm_num) (by norm_num),
      hint _ 50 50 rfl rfl (by norm_num)]
    rfl
  · rw [wxSpinCtrlGenericBase.Create_of_mem _ _ _ _ _ _ _ _ (by norm_num) (by norm_num),
      hint _ 5 5 rfl rfl (by norm_num)]
    rfl
  · rw [wxSpinCtrlGenericBase.Create_of_mem _ _ _ _ _ _ _ _ (by norm_num) (by norm_num),
      hint _ 5 5 rfl rfl (by norm_num)]
    rfl
  · rw [wxSpinCtrlGenericBase.Create_of_mem _ _ _ _ _ _ _ _ (by norm_num) (by norm_num),
      hint _ 10 10 rfl rfl (by norm_num)]
    rfl
  · rw [wxSpinCtrlGenericBase.Create_of_mem _ _ _ _ _ _ _ _ (by norm_num) (by norm_num),
      hint _ 0 0 rfl rfl (by norm_num)]
    rfl
  · rw [wxSpinCtrlGenericBase.Create_of_mem _ _ _ _ _ _ _ _ (by norm_num) (by norm_num),
      hdbl _ 0 (1 / 4) rfl rfl (by norm_num) (by norm_num)]
    rfl
  · rw [wxSpinCtrlGenericBase.Create_of_mem _ _ _ _ _ _ _ _ (by norm_num) (by norm_num),
      hdbl _ 0 0 rfl rfl (by norm_num) (by norm_num)]
    rfl
  · rw [wxSpinCtrlGenericBase.Create_of_mem _ _ _ _ _ _ _ _ (by norm_num) (by norm_num),
      hdbl _ 50 50 rfl rfl (by norm_num) (by norm_num)]
    rfl

/-- `SetBase` to a supported base other than the current one, compatible with
the range, when the field holds a number: the base changes and the field shows
the number in the new base. -/
theorem wxSpinCtrl.SetBase_changed (s : wxSpinCtrlGenericBase) (base : ℤ) (val : ℚ)
    (h1 : base = 10 ∨ base = 16) (h2 : base ≠ s.m_base)
    (h3 : wxSpinCtrlImpl.IsBaseCompatibleWithRange s.m_min s.m_max base = true)
    (hp : s.DoTextToValue s.m_textCtrl.value = some val) :
    wxSpinCtrl.SetBase s base =
      (true,
        { s with
          m_base := base,
          m_textCtrl :=
            { s.m_textCtrl with
              value := wxSpinCtrlGenericBase.DoValueToText { s with m_base := base } val } }) := by
  unfold wxSpinCtrl.SetBase
  rw [if_neg (by rintro ⟨a, b⟩; rcases h1 with h | h; exact a h; exact b h), if_neg h2,
    if_neg (by rw [h3]; exact Bool.noConfusion)]
  simp only [hp]

/-- The example controls `ticks5` and `ticksOutside` are made by `Create`
followed by `SetSnapToTicks(true)`, and `hex255` by `Create` followed by
`SetBase(16)`. -/
theorem Example.made_by_Create_and_setters :
    wxSpinCtrlGenericBase.SetSnapToTicks
        (wxSpinCtrlGenericBase.Create (wxSpinCtrlGenericBase.Init Kind.wxSpinCtrl 0 false true)
          "" 0 100 0 5) true = Example.ticks5
      ∧ wxSpinCtrlGenericBase.SetSnapToTicks
        (wxSpinCtrlGenericBase.Create (wxSpinCtrlGenericBase.Init Kind.wxSpinCtrl 0 false true)
          "" 1 3 1 5) true = Example.ticksOutside
      ∧ wxSpinCtrl.SetBase
        (wxSpinCtrlGenericBase.Create (wxSpinCtrlGenericBase.Init Kind.wxSpinCtrl 0 false true)
          "" 0 255 255 1) 16 = (true, Example.hex255) := by
  have hint : ∀ (s : wxSpinCtrlGenericBase) (n : ℤ) (q : ℚ), s.kind = Kind.wxSpinCtrl →
      s.m_base = 10 → q = (n : ℚ) → s.DoValueToText q = wxString.FormatLong n := by
    intro s n q hk hb hq
    rw [hq]
    exact wxSpinCtrl.DoValueToText_intCast s n hk hb
  refine ⟨?_, ?_, ?_⟩
  · rw [wxSpinCtrlGenericBase.Create_of_mem _ _ _ _ _ _ _ _ (by norm_num) (by norm_num),
      hint _ 0 0 rfl rfl (by norm_num)]
    unfold wxSpinCtrlGenericBase.SetSnapToTicks
    simp only []
    have hv : wxSpinCtrlGenericBase.AdjustAndSnap Example.ticks5 0 = 0 := by
      have := Example.ticks5.AdjustAndSnap_of_near 0 0 rfl
        (by norm_num [Example.ticks5])
        (by norm_num [Example.ticks5, wxSpinCtrlGenericBase.Init])
        (by norm_num [Example.ticks5, wxSpinCtrlGenericBase.Init])
        (by norm_num [Example.ticks5]) (by norm_num [Example.ticks5])
      rw [this]; norm_num
    have hs : Example.ticks5.DoValueToText 0 = "0" := by
      rw [hint _ 0 0 rfl rfl (by norm_num)]; decide
    have h := Example.ticks5.DoSetValue_unchanged 0 SendEvent.SendEvent_None
      (by rw [hv]; rfl) (by rw [hv, hs]; rfl)
    exact congrArg Prod.snd h
  · rw [wxSpinCtrlGenericBase.Create_of_mem _ _ _ _ _ _ _ _ (by norm_num) (by norm_num),
      hint _ 1 1 rfl rfl (by norm_num)]
    unfold wxSpinCtrlGenericBase.SetSnapToTicks
    simp only []
    have hv : wxSpinCtrlGenericBase.AdjustAndSnap
        { Example.ticksOutside with
          m_value := 1, m_textCtrl := { value := "1", modified := false } } 1
        = ((0 : ℤ) : ℚ) := by
      have := wxSpinCtrlGenericBase.AdjustAndSnap_of_near
        { Example.ticksOutside with
          m_value := 1, m_textCtrl := { value := "1", modified := false } } 1 0 rfl
        (by norm_num [Example.ticksOutside])
        (by norm_num [Example.ticksOutside])
        (by norm_num [Example.ticksOutside])
        (by norm_num [Example.ticksOutside]) (by norm_num [Example.ticksOutside])
      rw [this]; norm_num
    have h := wxSpinCtrl.DoSetValue_eval_long
      { Example.ticksOutside with
        m_value := 1, m_textCtrl := { value := "1", modified := false } } 1
      SendEvent.SendEvent_None 0 0 "0" rfl rfl hv (by decide)
      (Or.inr (by decide)) (by decide)
    refine (congrArg Prod.snd h).trans ?_
    norm_num [Example.ticksOutside, wxSpinCtrlGenericBase.Init]
  · rw [wxSpinCtrlGenericBase.Create_of_mem _ _ _ _ _ _ _ _ (by norm_num) (by norm_num),
      hint _ 255 255 rfl rfl (by norm_num)]
    have hp : wxSpinCtrlGenericBase.DoTextToValue
        { Example.hex255 with
          m_base := 10, m_textCtrl := { value := "255", modified := false } }
        "255" = some ((255 : ℤ) : ℚ) := by
      rw [wxSpinCtrl.DoTextToValue_base10 _ _ rfl rfl]
      have : wxString.ToLong "255" 10 = some 255 := by decide
      rw [this]; rfl
    have hf : wxSpinCtrlGenericBase.DoValueToText Example.hex255 ((255 : ℤ) : ℚ) = "FF" := by
      unfold wxSpinCtrlGenericBase.DoValueToText wxSpinCtrl.DoValueToText
      simp only [castToLong_intCast]
      decide
    have e : wxString.FormatLong 255 = "255" := by decide
    rw [e]
    have h := wxSpinCtrl.SetBase_changed
      { Example.hex255 with
        m_base := 10, m_textCtrl := { value := "255", modified := false } }
      16 ((255 : ℤ) : ℚ) (Or.inr rfl) (by decide)
      (by unfold wxSpinCtrlImpl.IsBaseCompatibleWithRange; simp [Example.hex255, wxSpinCtrlGenericBase.Init]) hp
    refine Eq.trans ?_ (h.trans ?_)
    · norm_num [Example.hex255, wxSpinCtrlGenericBase.Init]
    · have hf' : wxSpinCtrlGenericBase.DoValueToText
          { ({ Example.hex255 with
              m_base := 10, m_textCtrl := { value := "255", modified := false } } :
              wxSpinCtrlGenericBase) with m_base := 16 } ((255 : ℤ) : ℚ) = "FF" := hf
      rw [hf']
      rfl

/-! ## Rounding to `double` -/

namespace binary64

/-- An integer is its own nearest integer. -/
theorem nearestEven_intCast (m : ℤ) : nearestEven (m : ℚ) = m := by
  unfold nearestEven
  simp

/-- A number in `(n + 1/2, n + 1)` has nearest integer `n + 1`. -/
theorem nearestEven_of_gt (r : ℚ) (n : ℤ) (h1 : (n : ℚ) + 1 / 2 < r) (h2 : r < n + 1) :
    nearestEven r = n + 1 := by
  have hf : ⌊r⌋ = n := by
    rw [Int.floor_eq_iff]
    constructor <;> linarith
  unfold nearestEven
  simp only [hf]
  rw [if_neg (by linarith), if_pos (by linarith)]

/-- A number exactly halfway above the odd integer `n` goes to `n + 1`. -/
theorem nearestEven_tie_odd (r : ℚ) (n : ℤ) (h : r = (n : ℚ) + 1 / 2) (hodd : n % 2 = 1) :
    nearestEven r = n + 1 := by
  have hf : ⌊r⌋ = n := by
    rw [Int.floor_eq_iff]
    constructor <;> linarith
  unfold nearestEven
  simp only [hf]
  rw [if_neg (by linarith), if_neg (by linarith), if_neg (by omega)]

/-- The exponent of a number in `[2 ^ e, 2 ^ (e + 1))`, for `e` not below the
subnormal range. -/
theorem exponent_eq (q : ℚ) (e : ℤ) (h1 : (2 : ℚ) ^ e ≤ |q|) (h2 : |q| < (2 : ℚ) ^ (e + 1))
    (he : -1022 ≤ e) : exponent q = e := by
  have hpos : 0 < |q| := lt_of_lt_of_le (zpow_pos (by norm_num) e) h1
  have hlog : Int.log 2 |q| = e := by
    apply le_antisymm
    · have : Int.log 2 |q| < e + 1 := by
        rw [← Int.lt_zpow_iff_log_lt (by norm_num) hpos]
        exact_mod_cast h2
      omega
    · rw [← Int.zpow_le_iff_le_log (by norm_num) hpos]
      exact_mod_cast h1
  unfold exponent
  rw [hlog]
  exact max_eq_left he

/-- The `double` nearest to a number in `[2 ^ e, 2 ^ (e + 1))`. -/
theorem nearest_eq (q : ℚ) (e m : ℤ) (h1 : (2 : ℚ) ^ e ≤ |q|) (h2 : |q| < (2 : ℚ) ^ (e + 1))
    (he : -1022 ≤ e) (hm : nearestEven (q / (2 : ℚ) ^ (e - 52)) = m) :
    nearest q = (m : ℚ) * (2 : ℚ) ^ (e - 52) := by
  unfold nearest ulp
  rw [exponent_eq q e h1 h2 he, hm]

/-- A number in `[2 ^ e, 2 ^ (e + 1))` that is a multiple of `2 ^ (e - 52)` is a
`double`: rounding leaves it as it is. -/
theorem nearest_exact (q : ℚ) (e m : ℤ) (h1 : (2 : ℚ) ^ e ≤ |q|) (h2 : |q| < (2 : ℚ) ^ (e + 1))
    (he : -1022 ≤ e) (hq : q = (m : ℚ) * (2 : ℚ) ^ (e - 52)) : nearest q = q := by
  have hz : (2 : ℚ) ^ (e - 52) ≠ 0 := zpow_ne_zero _ (by norm_num)
  rw [nearest_eq q e m h1 h2 he, ← hq]
  rw [hq, mul_div_assoc, div_self hz, mul_one]
  exact nearestEven_intCast m

/-- Zero is a `double`. -/
theorem nearest_zero : nearest 0 = 0 := by
  unfold nearest
  simp [nearestEven]

end binary64

namespace binary64

/-- A rounded result of magnitude at most `2 ^ 1023` does not overflow. -/
theorem finite_of_le (q : ℚ) (h : |q| ≤ 2 ^ 1023) : finite q = some q := by
  have hmax : (2 : ℚ) ^ 1023 ≤ maxFinite := by
    unfold maxFinite
    norm_num
  unfold finite
  rw [if_pos (le_trans h hmax)]

end binary64

namespace wxSpinCtrlGenericBase

/-- The machine's `AdjustAndSnap` on a value of the range whose rounded
quotient by the increment is `q`, when the ceiling branch is taken. -/
theorem AdjustAndSnap64_ceil (s : wxSpinCtrlGenericBase) (v q : ℚ)
    (hs : s.m_snap_to_ticks = true) (hi : s.m_increment ≠ 0)
    (hlo : s.m_min ≤ v) (hhi : v ≤ s.m_max)
    (hq : binary64.div v s.m_increment = some q)
    (hlt : ¬ (binary64.sub q ⌊q⌋ < binary64.sub ⌈q⌉ q)) :
    s.AdjustAndSnap64 v = binary64.mul ⌈q⌉ s.m_increment := by
  unfold AdjustAndSnap64
  simp only []
  rw [if_neg (not_lt.mpr hlo), if_neg (not_lt.mpr hhi), if_pos ⟨hs, hi⟩, hq]
  simp only []
  rw [if_neg hlt]

end wxSpinCtrlGenericBase

/-- In the control `Example.tenths` (range `[0, 0.25]`, increment the `double`
`0.1`, snapping on) the machine's `AdjustAndSnap` takes `0.25` to
`0.30000000000000004`, that is `1351079888211149 / 2 ^ 52`: the rounded quotient
is exactly `2.5`, the two differences are both `0.5`, the ceiling branch is
taken and `3 * 0.1` rounds up to the next `double`. -/
theorem Example.tenths_AdjustAndSnap64 :
    binary64.div (1 / 4) Example.tenth = some (5 / 2)
      ∧ binary64.sub (5 / 2) ⌊(5 / 2 : ℚ)⌋ = 1 / 2
      ∧ binary64.sub ⌈(5 / 2 : ℚ)⌉ (5 / 2) = 1 / 2
      ∧ binary64.mul 3 Example.tenth = some (1351079888211149 / 4503599627370496)
      ∧ Example.tenths.AdjustAndSnap64 (1 / 4)
          = some (1351079888211149 / 4503599627370496) := by
  have hf : ⌊(5 / 2 : ℚ)⌋ = 2 := by norm_num [Int.floor_eq_iff]
  have hc : ⌈(5 / 2 : ℚ)⌉ = 3 := by norm_num [Int.ceil_eq_iff]
  have hdiv : binary64.div (1 / 4) Example.tenth = some (5 / 2) := by
    unfold binary64.div
    have hn : binary64.nearest (1 / 4 / Example.tenth) = 5 / 2 := by
      rw [binary64.nearest_eq (1 / 4 / Example.tenth) 1 5629499534213120
        (by norm_num [Example.tenth, abs_of_pos])
        (by norm_num [Example.tenth, abs_of_pos]) (by norm_num)
        (by
          have := binary64.nearestEven_of_gt ((1 / 4 / Example.tenth) / (2 : ℚ) ^ ((1 : ℤ) - 52))
            5629499534213119 (by norm_num [Example.tenth]) (by norm_num [Example.tenth])
          rw [this]; norm_num)]
      norm_num
    rw [hn]
    exact binary64.finite_of_le _ (by norm_num [abs_of_pos])
  have hhalf : binary64.nearest (1 / 2) = 1 / 2 :=
    binary64.nearest_exact (1 / 2) (-1) 4503599627370496 (by norm_num [abs_of_pos])
      (by norm_num [abs_of_pos]) (by norm_num) (by norm_num)
  have hs1 : binary64.sub (5 / 2) ⌊(5 / 2 : ℚ)⌋ = 1 / 2 := by
    unfold binary64.sub
    rw [hf]
    have : (5 / 2 : ℚ) - ((2 : ℤ) : ℚ) = 1 / 2 := by norm_num
    rw [this, hhalf]
  have hs2 : binary64.sub ⌈(5 / 2 : ℚ)⌉ (5 / 2) = 1 / 2 := by
    unfold binary64.sub
    rw [hc]
    have : ((3 : ℤ) : ℚ) - 5 / 2 = 1 / 2 := by norm_num
    rw [this, hhalf]
  have hmul : binary64.mul 3 Example.tenth
      = some (1351079888211149 / 4503599627370496) := by
    unfold binary64.mul
    have hn : binary64.nearest (3 * Example.tenth) = 1351079888211149 / 4503599627370496 := by
      rw [binary64.nearest_eq (3 * Example.tenth) (-2) 5404319552844596
        (by norm_num [Example.tenth, abs_of_pos])
        (by norm_num [Example.tenth, abs_of_pos]) (by norm_num)
        (by
          have := binary64.nearestEven_tie_odd ((3 * Example.tenth) / (2 : ℚ) ^ ((-2 : ℤ) - 52))
            5404319552844595 (by norm_num [Example.tenth]) (by norm_num)
          rw [this]; norm_num)]
      norm_num
    rw [hn]
    exact binary64.finite_of_le _ (by norm_num [abs_of_pos])
  refine ⟨hdiv, hs1, hs2, hmul, ?_⟩
  have hi : Example.tenths.m_increment = Example.tenth := rfl
  rw [Example.tenths.AdjustAndSnap64_ceil (1 / 4) (5 / 2) rfl
    (by rw [hi]; norm_num [Example.tenth])
    (by norm_num [Example.tenths, wxSpinCtrlGenericBase.Init])
    (by norm_num [Example.tenths, wxSpinCtrlGenericBase.Init])
    (by rw [hi]; exact hdiv)
    (by rw [hs1, hs2]; norm_num),
    hc, hi]
  exact_mod_cast hmul

/-- In the control `Example.tenths` the value returned by the machine's
`AdjustAndSnap` for `0.25` lies above the maximum by more than half an
increment. -/
theorem Example.tenths_above_max :
    Example.tenths.m_min ≤ Example.tenths.m_max
      ∧ Example.tenths.AdjustAndSnap64 (1 / 4)
          = some (1351079888211149 / 4503599627370496)
      ∧ Example.tenths.m_max + |Example.tenths.m_increment| / 2
          < 1351079888211149 / 4503599627370496 := by
  refine ⟨by norm_num [Example.tenths, wxSpinCtrlGenericBase.Init],
    Example.tenths_AdjustAndSnap64.2.2.2.2, ?_⟩
  have hi : Example.tenths.m_increment = Example.tenth := rfl
  have hm : Example.tenths.m_max = 1 / 4 := rfl
  rw [hi, hm]
  norm_num [Example.tenth, abs_of_pos]

/-! ## Snapping to the nearest tick: claim C12 -/

